import Mathlib

/-!
Logitech Flight System G940 force feedback (drivers/hid/hid-lg3ff.c).

A shallow embedding of the driver: the packed report structure and its memory
image, the dispatch routine, the two effect callbacks and the start-up routine,
followed by the properties proved about them.

Conventions.
* Signed C values (s8, s16, int) are `Int`, unsigned ones (u8, u16) are `Nat`;
  every conversion that can drop bits is written out with an explicit modulus.
* The host byte order is a parameter, so that the byte-swapping helper can be
  followed on both kinds of host.
* The memory image of a structure is the list of its bytes in address order.
-/

namespace Lg3ff

/-! ## Machine integers -/

/-- Conversion of an integer to a signed 8-bit value (C conversion to s8). -/
def s8_of_int (v : Int) : Int :=
  let u := v % 256
  if u < 128 then u else u - 256

/-- Conversion of an integer to a signed 16-bit value (C conversion to s16). -/
def s16_of_int (v : Int) : Int :=
  let u := v % 65536
  if u < 32768 then u else u - 65536

/-- Conversion of an integer to a signed 32-bit value (C int, wrapping). -/
def s32_of_int (v : Int) : Int :=
  let u := v % 4294967296
  if u < 2147483648 then u else u - 4294967296

/-- Unary minus on a C int. -/
def int_neg (v : Int) : Int := s32_of_int (-v)

/-- Left shift of a C int by `n` bits. -/
def int_shl (v : Int) (n : Nat) : Int := s32_of_int (v * 2 ^ n)

/-- Right shift of a C int by `n` bits (arithmetic shift). -/
def int_shr (v : Int) (n : Nat) : Int := v / 2 ^ n

/-- The bit pattern of a signed 16-bit value, as an unsigned 16-bit number. -/
def u16_of_s16 (v : Int) : Nat := (v % 65536).toNat

/-- The bit pattern of a signed 8-bit value, as a byte. -/
def u8_of_s8 (v : Int) : Nat := (v % 256).toNat

/-! ## Host byte order -/

/-- Byte order of the processor the driver runs on. -/
inductive byte_order where
  | little_endian
  | big_endian
deriving DecidableEq, Repr

/-- Exchange of the two bytes of a 16-bit number. -/
def swab16 (v : Nat) : Nat := (v % 256) * 256 + (v / 256) % 256

/-- Kernel helper cpu_to_le16: identity on a little-endian host, byte swap on
a big-endian one. -/
def cpu_to_le16 (host : byte_order) (v : Nat) : Nat :=
  match host with
  | .little_endian => v % 65536
  | .big_endian => swab16 v

/-- Kernel helper le16_to_cpu, the inverse conversion. -/
def le16_to_cpu (host : byte_order) (v : Nat) : Nat :=
  match host with
  | .little_endian => v % 65536
  | .big_endian => swab16 v

/-- Source lines 33-36: `lg3ff_cpu_to_sle16`. The result has type lg3_s16, a
signed 16-bit cell holding the little-endian representation of `val`. -/
def lg3ff_cpu_to_sle16 (host : byte_order) (val : Int) : Int :=
  s16_of_int (cpu_to_le16 host (u16_of_s16 val))

/-- The signed number an lg3_s16 cell stands for (the reading that undoes
`lg3ff_cpu_to_sle16`). -/
def lg3ff_sle16_to_cpu (host : byte_order) (cell : Int) : Int :=
  s16_of_int (le16_to_cpu host (u16_of_s16 cell))

/-! ## The packed report (source lines 38-67) -/

/-- Source lines 38-61: `struct hid_lg3ff_axis`, packed. -/
structure hid_lg3ff_axis where
  constant_force : Int
  _padding0 : Nat
  autocenter_strength : Int
  autocenter_force : Int
  autocenter_damping : Int
  spring_deadzone_neg : Int
  spring_deadzone_pos : Int
  spring_coeff_neg : Int
  spring_coeff_pos : Int
  spring_saturation : Int
  _padding1 : Fin 8 → Nat
  damper_coeff_neg : Int
  damper_coeff_pos : Int
  damper_saturation : Int
  _padding2 : Fin 4 → Nat

/-- Source lines 63-67: `struct hid_lg3ff_report`, packed. -/
structure hid_lg3ff_report where
  x : hid_lg3ff_axis
  y : hid_lg3ff_axis
  _padding : Fin 3 → Nat

/-- The all-zero axis block. -/
def hid_lg3ff_axis.zero : hid_lg3ff_axis :=
  { constant_force := 0, _padding0 := 0, autocenter_strength := 0,
    autocenter_force := 0, autocenter_damping := 0, spring_deadzone_neg := 0,
    spring_deadzone_pos := 0, spring_coeff_neg := 0, spring_coeff_pos := 0,
    spring_saturation := 0, _padding1 := fun _ => 0, damper_coeff_neg := 0,
    damper_coeff_pos := 0, damper_saturation := 0, _padding2 := fun _ => 0 }

/-- The initialiser `= {0}` of source lines 90 and 115. -/
def hid_lg3ff_report.zero : hid_lg3ff_report :=
  { x := hid_lg3ff_axis.zero, y := hid_lg3ff_axis.zero, _padding := fun _ => 0 }

/-- Memory image of a u8 member. -/
def u8_bytes (v : Nat) : List Nat := [v % 256]

/-- Memory image of an s8 member. -/
def s8_bytes (v : Int) : List Nat := [u8_of_s8 v]

/-- Memory image of a 16-bit member on the given host: low byte at the lower
address on a little-endian host, high byte there on a big-endian one. -/
def s16_bytes (host : byte_order) (v : Int) : List Nat :=
  match host with
  | .little_endian => [u16_of_s16 v % 256, u16_of_s16 v / 256]
  | .big_endian => [u16_of_s16 v / 256, u16_of_s16 v % 256]

/-- Memory image of a u8 array member of `n` elements. -/
def u8_array_bytes {n : Nat} (a : Fin n → Nat) : List Nat :=
  List.ofFn (fun i => a i % 256)

/-- Memory image of the packed axis block: the members in declaration order,
with no gaps. -/
def hid_lg3ff_axis.bytes (host : byte_order) (a : hid_lg3ff_axis) : List Nat :=
  s16_bytes host a.constant_force
  ++ u8_bytes a._padding0
  ++ s8_bytes a.autocenter_strength
  ++ s8_bytes a.autocenter_force
  ++ s8_bytes a.autocenter_damping
  ++ s16_bytes host a.spring_deadzone_neg
  ++ s16_bytes host a.spring_deadzone_pos
  ++ s8_bytes a.spring_coeff_neg
  ++ s8_bytes a.spring_coeff_pos
  ++ s16_bytes host a.spring_saturation
  ++ u8_array_bytes a._padding1
  ++ s8_bytes a.damper_coeff_neg
  ++ s8_bytes a.damper_coeff_pos
  ++ s16_bytes host a.damper_saturation
  ++ u8_array_bytes a._padding2

/-- Memory image of the packed report, what `(u8 *)raw_rep` reads. -/
def hid_lg3ff_report.bytes (host : byte_order) (r : hid_lg3ff_report) : List Nat :=
  r.x.bytes host ++ r.y.bytes host ++ u8_array_bytes r._padding

/-- The size of the report structure in bytes, `sizeof(struct hid_lg3ff_report)`. -/
def sizeof_hid_lg3ff_report : Nat := 2 * (2 + 1 + 1 + 1 + 1 + 2 + 2 + 1 + 1 + 2 + 8 + 1 + 1 + 2 + 4) + 3

/-! ## Kernel objects the driver touches -/

/-- Modelled from the spec: the effect-category tag for constant force. The
macro FF_CONSTANT is declared in linux/input.h, which is not among the
sources; it has that header's value. -/
def FF_CONSTANT : Nat := 0x52

/-- Modelled from the spec: the capability tag for autocentering. The macro
FF_AUTOCENTER is declared in linux/input.h, which is not among the sources; it
has that header's value. -/
def FF_AUTOCENTER : Nat := 0x61

/-- Modelled from the spec: the report class of outgoing reports. The macro
HID_OUTPUT_REPORT is declared in linux/hid.h, which is not among the sources;
it has that header's value. -/
def HID_OUTPUT_REPORT : Nat := 1

/-- Modelled from the spec: the request kind of the send primitive. The macro
HID_REQ_SET_REPORT is declared in linux/hid.h, which is not among the sources;
it has that header's value. -/
def HID_REQ_SET_REPORT : Nat := 0x09

/-- Modelled from the spec: the start-up error code. The macro ENODEV is
declared in the kernel's errno header, which is not among the sources; it has
that header's value. -/
def ENODEV : Int := 19

/-- Source line 69. -/
def FF_REPORT_ID : Nat := 2

/-- The ramp member of the effect union: two s16 levels. -/
structure ff_ramp_effect where
  start_level : Int
  end_level : Int
deriving DecidableEq, Repr

/-- The union member `u` of an effect, of which the driver reads `ramp`. -/
structure ff_effect_union where
  ramp : ff_ramp_effect
deriving DecidableEq, Repr

/-- The part of `struct ff_effect` the driver reads: the u16 type tag and the
ramp levels. -/
structure ff_effect where
  type : Nat
  u : ff_effect_union
deriving DecidableEq, Repr

/-- The functions of this driver that are handed to the kernel as callbacks. -/
inductive ff_handler where
  | hid_lg3ff_play
  | hid_lg3ff_set_autocenter
deriving DecidableEq, Repr

/-- The part of `struct ff_device` that matters here: the play callback kept
by the memless layer and the autocenter callback. -/
structure ff_device where
  play_effect : Option ff_handler
  set_autocenter : Option ff_handler
deriving DecidableEq, Repr

/-- The part of `struct input_dev` the driver touches: the capability bitmap
`ffbit` and the pointer `ff` (absent while no force-feedback device exists). -/
structure input_dev where
  ffbit : Nat → Bool
  ff : Option ff_device

/-- One call of hid_hw_request, as seen by the transport: the report id, the
request kind and the values of field 0 at the time of the call. -/
structure hid_request where
  report_id : Nat
  reqtype : Nat
  data : List Int
deriving DecidableEq, Repr

/-- The part of `struct hid_device` the driver touches: its input device
(first entry of `inputs`, whose driver data points back here), field 0 of
output report `FF_REPORT_ID` (`report_count` and the array behind the pointer
`value`, indexed without bounds as in C), and the requests handed to the
transport so far, oldest first. -/
structure hid_device where
  input : input_dev
  report_count : Nat
  value : Nat → Int
  requests : List hid_request

/-- Kernel helper set_bit on a bitmap. -/
def set_bit (nr : Nat) (addr : Nat → Bool) : Nat → Bool :=
  fun k => if k = nr then true else addr k

/-- Kernel helper test_bit on a bitmap. -/
def test_bit (nr : Nat) (addr : Nat → Bool) : Bool := addr nr

/-- Kernel helper hid_hw_request: hands the report to the transport, which
reads the current values of its field. -/
def hid_hw_request (hid : hid_device) (report_id : Nat) (reqtype : Nat) : hid_device :=
  { hid with
    requests := hid.requests ++
      [{ report_id := report_id, reqtype := reqtype,
         data := (List.range hid.report_count).map hid.value }] }

/-- The assignment `value[i] = b`. -/
def store (value : Nat → Int) (i : Nat) (b : Int) : Nat → Int :=
  fun k => if k = i then b else value k

/-! ## The driver (source lines 71-163) -/

/-- Source lines 71-85: `hig_lg3ff_send`. The loop copies the memory image of
the report, byte by byte, into the values of field 0, then the request is
issued. -/
def hig_lg3ff_send (host : byte_order) (hid : hid_device) (raw_rep : hid_lg3ff_report) :
    hid_device :=
  let value := (List.range sizeof_hid_lg3ff_report).foldl
    (fun value i => store value i (((raw_rep.bytes host).getD i 0 : Nat) : Int)) hid.value
  hid_hw_request { hid with value := value } FF_REPORT_ID HID_REQ_SET_REPORT

/-- Source lines 87-112: `hid_lg3ff_play`. Returns the device afterwards and
the status. -/
def hid_lg3ff_play (host : byte_order) (dev : hid_device) (effect : ff_effect) :
    hid_device × Int :=
  let report := hid_lg3ff_report.zero
  if effect.type = FF_CONSTANT then
    let x := s16_of_int (int_shl (int_neg effect.u.ramp.start_level) 8)
    let y := s16_of_int (int_shl (int_neg effect.u.ramp.end_level) 8)
    let report := { report with
      x := { report.x with constant_force := lg3ff_cpu_to_sle16 host x } }
    let report := { report with
      y := { report.y with constant_force := lg3ff_cpu_to_sle16 host y } }
    (hig_lg3ff_send host dev report, 0)
  else
    (dev, 0)

/-- The local variable `report` of `hid_lg3ff_play` at the call of line 108,
when that line is reached. -/
def hid_lg3ff_play_report (host : byte_order) (effect : ff_effect) : Option hid_lg3ff_report :=
  let report := hid_lg3ff_report.zero
  if effect.type = FF_CONSTANT then
    let x := s16_of_int (int_shl (int_neg effect.u.ramp.start_level) 8)
    let y := s16_of_int (int_shl (int_neg effect.u.ramp.end_level) 8)
    let report := { report with
      x := { report.x with constant_force := lg3ff_cpu_to_sle16 host x } }
    let report := { report with
      y := { report.y with constant_force := lg3ff_cpu_to_sle16 host y } }
    some report
  else
    none

/-- The local variable `report` of `hid_lg3ff_set_autocenter` at the call of
line 124. -/
def hid_lg3ff_set_autocenter_report (magnitude : Nat) : hid_lg3ff_report :=
  let report := hid_lg3ff_report.zero
  let mag_scaled := s8_of_int (int_shr (magnitude : Int) 9)
  let report := { report with x := { report.x with autocenter_strength := 127 } }
  let report := { report with x := { report.x with autocenter_force := mag_scaled } }
  let report := { report with y := { report.y with autocenter_strength := 127 } }
  let report := { report with y := { report.y with autocenter_force := mag_scaled } }
  report

/-- Source lines 113-125: `hid_lg3ff_set_autocenter`; `magnitude` is a u16. -/
def hid_lg3ff_set_autocenter (host : byte_order) (dev : hid_device) (magnitude : Nat) :
    hid_device :=
  let report := hid_lg3ff_report.zero
  let mag_scaled := s8_of_int (int_shr (magnitude : Int) 9)
  let report := { report with x := { report.x with autocenter_strength := 127 } }
  let report := { report with x := { report.x with autocenter_force := mag_scaled } }
  let report := { report with y := { report.y with autocenter_strength := 127 } }
  let report := { report with y := { report.y with autocenter_force := mag_scaled } }
  hig_lg3ff_send host dev report

/-- Source lines 128-132. -/
def ff3_joystick_ac : List Int := [FF_CONSTANT, FF_AUTOCENTER, -1]

/-- The loop of source lines 149-150 over the table `ff_bits`: every entry
before the first negative one is set in the bitmap. -/
def set_ff_bits : List Int → (Nat → Bool) → (Nat → Bool)
  | [], ffbit => ffbit
  | b :: rest, ffbit => if 0 ≤ b then set_ff_bits rest (set_bit b.toNat ffbit) else ffbit

/-- Source lines 134-163: `lg3ff_init`. The two kernel helpers it calls are
parameters: `hid_validate_values hid type id field_index report_counts` tells
whether the helper returned a report (true) or NULL (false), and
`input_ff_create_memless dev play` returns the input device afterwards and the
helper's status. The result is `none` when line 157 would write through a NULL
`dev->ff`. -/
def lg3ff_init
    (hid_validate_values : hid_device → Nat → Nat → Nat → Nat → Bool)
    (input_ff_create_memless : input_dev → ff_handler → input_dev × Int)
    (host : byte_order) (hid : hid_device) : Option (hid_device × Int) :=
  let dev := hid.input
  let ff_bits := ff3_joystick_ac
  if !(hid_validate_values hid HID_OUTPUT_REPORT FF_REPORT_ID 0 sizeof_hid_lg3ff_report) then
    some (hid, -ENODEV)
  else
    let dev := { dev with ffbit := set_ff_bits ff_bits dev.ffbit }
    let (dev, error) := input_ff_create_memless dev ff_handler.hid_lg3ff_play
    if error ≠ 0 then
      some ({ hid with input := dev }, error)
    else if test_bit FF_AUTOCENTER dev.ffbit then
      match dev.ff with
      | none => none
      | some ff =>
        let dev := { dev with
          ff := some { ff with set_autocenter := some ff_handler.hid_lg3ff_set_autocenter } }
        some (hid_lg3ff_set_autocenter host { hid with input := dev } 0, 0)
    else
      some ({ hid with input := dev }, 0)

/-- The first `sizeof(struct hid_lg3ff_report)` values of field 0, in order. -/
def hid_device.buffer (hid : hid_device) : List Int :=
  (List.range sizeof_hid_lg3ff_report).map hid.value

/-- Modelled from the spec: the kernel helper hid_validate_values, which is
called at source line 144 and is not among the sources. In the spec's words
the start-up validation checks that the device's report "matches the expected
63-byte layout", and a device "whose report size does not equal 63 bytes
(e.g., 62 or 64)" is turned down. So the report asked for has to be the one
held here (output report `FF_REPORT_ID`, field 0) and its number of values has
to equal the number asked for. -/
def hid_validate_values (hid : hid_device) (type id field_index report_counts : Nat) : Bool :=
  decide (type = HID_OUTPUT_REPORT ∧ id = FF_REPORT_ID ∧ field_index = 0
    ∧ hid.report_count = report_counts)

/-! ## Auxiliary facts -/

theorem sizeof_hid_lg3ff_report_eq : sizeof_hid_lg3ff_report = 63 := by decide

theorem u16_of_s16_lt (v : Int) : u16_of_s16 v < 65536 := by
  unfold u16_of_s16; omega

theorem u16_of_s16_s16_of_int (v : Int) :
    u16_of_s16 (s16_of_int v) = (v % 65536).toNat := by
  unfold u16_of_s16 s16_of_int
  simp only
  split <;> congr 1 <;> omega

theorem s16_of_int_u16_of_s16 (v : Int) :
    s16_of_int (u16_of_s16 v : Nat) = s16_of_int v := by
  unfold u16_of_s16 s16_of_int
  simp only
  have h : (((v % 65536).toNat : Nat) : Int) = v % 65536 := by omega
  rw [h]
  simp

theorem swab16_eq (n : Nat) (h : n < 65536) : swab16 n = (n % 256) * 256 + n / 256 := by
  unfold swab16
  have h1 : n / 256 < 256 := by omega
  rw [Nat.mod_eq_of_lt h1]

theorem swab16_lt (n : Nat) (h : n < 65536) : swab16 n < 65536 := by
  rw [swab16_eq n h]; omega

theorem swab16_swab16 (n : Nat) (h : n < 65536) : swab16 (swab16 n) = n := by
  rw [swab16_eq _ (swab16_lt n h), swab16_eq n h]; omega

/-- On either host the memory image of a cell written by `lg3ff_cpu_to_sle16`
is the low byte of the value followed by its high byte. -/
theorem s16_bytes_cpu_to_sle16 (host : byte_order) (v : Int) :
    s16_bytes host (lg3ff_cpu_to_sle16 host v)
      = [u16_of_s16 v % 256, u16_of_s16 v / 256] := by
  have hlt := u16_of_s16_lt v
  cases host
  · simp only [s16_bytes, lg3ff_cpu_to_sle16, cpu_to_le16, u16_of_s16_s16_of_int]
    have : (((u16_of_s16 v % 65536 : Nat) : Int) % 65536).toNat = u16_of_s16 v := by omega
    rw [this]
  · simp only [s16_bytes, lg3ff_cpu_to_sle16, cpu_to_le16, u16_of_s16_s16_of_int]
    have : (((swab16 (u16_of_s16 v) : Nat) : Int) % 65536).toNat
        = (u16_of_s16 v % 256) * 256 + u16_of_s16 v / 256 := by
      have := swab16_lt _ hlt
      rw [← swab16_eq _ hlt]; omega
    rw [this]
    congr 1
    · omega
    · congr 1; omega

/-- Reading back a cell written by `lg3ff_cpu_to_sle16` gives the value
written, on either host. -/
theorem sle16_to_cpu_cpu_to_sle16 (host : byte_order) (v : Int) :
    lg3ff_sle16_to_cpu host (lg3ff_cpu_to_sle16 host v) = s16_of_int v := by
  have hlt := u16_of_s16_lt v
  cases host
  · simp only [lg3ff_sle16_to_cpu, lg3ff_cpu_to_sle16, cpu_to_le16, le16_to_cpu,
      u16_of_s16_s16_of_int]
    have : ((((u16_of_s16 v % 65536 : Nat) : Int) % 65536).toNat % 65536 : Nat)
        = u16_of_s16 v := by omega
    rw [this, s16_of_int_u16_of_s16]
  · simp only [lg3ff_sle16_to_cpu, lg3ff_cpu_to_sle16, cpu_to_le16, le16_to_cpu,
      u16_of_s16_s16_of_int]
    have h1 : (((swab16 (u16_of_s16 v) : Nat) : Int) % 65536).toNat
        = swab16 (u16_of_s16 v) := by
      have := swab16_lt _ hlt
      omega
    rw [h1, swab16_swab16 _ hlt, s16_of_int_u16_of_s16]

/-- On a little-endian host the cell holds the value itself. -/
theorem cpu_to_sle16_little_endian (v : Int) :
    lg3ff_cpu_to_sle16 .little_endian v = s16_of_int v := by
  have hlt := u16_of_s16_lt v
  simp only [lg3ff_cpu_to_sle16, cpu_to_le16]
  rw [Nat.mod_eq_of_lt hlt, s16_of_int_u16_of_s16]

theorem s16_bytes_zero (host : byte_order) : s16_bytes host 0 = [0, 0] := by
  cases host <;> decide

theorem s16_bytes_length (host : byte_order) (v : Int) : (s16_bytes host v).length = 2 := by
  cases host <;> rfl

theorem axis_bytes_length (host : byte_order) (a : hid_lg3ff_axis) :
    (a.bytes host).length = 30 := by
  simp [hid_lg3ff_axis.bytes, s16_bytes_length, u8_bytes, s8_bytes, u8_array_bytes]

theorem report_bytes_length (host : byte_order) (r : hid_lg3ff_report) :
    (r.bytes host).length = 63 := by
  simp [hid_lg3ff_report.bytes, axis_bytes_length, u8_array_bytes]

/-- The loop of `hig_lg3ff_send`, value by value: the first `n` values are the
ones stored, the others are untouched. -/
theorem foldl_store (f : Nat → Int) (n : Nat) (value : Nat → Int) (k : Nat) :
    (List.range n).foldl (fun value i => store value i (f i)) value k
      = if k < n then f k else value k := by
  induction n with
  | zero => simp
  | succ n ih =>
    rw [List.range_succ, List.foldl_append]
    simp only [List.foldl_cons, List.foldl_nil, store]
    by_cases hk : k = n
    · subst hk; simp
    · rw [if_neg hk, ih]
      by_cases hlt : k < n
      · rw [if_pos hlt, if_pos (by omega)]
      · rw [if_neg hlt, if_neg (by omega)]

theorem send_value (host : byte_order) (hid : hid_device) (r : hid_lg3ff_report) (k : Nat) :
    (hig_lg3ff_send host hid r).value k
      = if k < 63 then (((r.bytes host).getD k 0 : Nat) : Int) else hid.value k := by
  simp only [hig_lg3ff_send, hid_hw_request]
  rw [foldl_store (fun i => (((r.bytes host).getD i 0 : Nat) : Int))]
  rfl

theorem send_buffer (host : byte_order) (hid : hid_device) (r : hid_lg3ff_report) :
    (hig_lg3ff_send host hid r).buffer = (r.bytes host).map Int.ofNat := by
  apply List.ext_getElem
  · simp [hid_device.buffer, report_bytes_length, sizeof_hid_lg3ff_report_eq]
  · intro n h1 h2
    simp only [hid_device.buffer, List.length_map, List.length_range,
      sizeof_hid_lg3ff_report_eq] at h1
    simp only [hid_device.buffer, List.getElem_map, List.getElem_range, send_value, if_pos h1]
    rw [List.getD_eq_getElem _ _ (by rw [report_bytes_length]; exact h1)]
    rfl

theorem send_input (host : byte_order) (hid : hid_device) (r : hid_lg3ff_report) :
    (hig_lg3ff_send host hid r).input = hid.input := rfl

theorem send_report_count (host : byte_order) (hid : hid_device) (r : hid_lg3ff_report) :
    (hig_lg3ff_send host hid r).report_count = hid.report_count := rfl

/-- The report of a constant-force effect is dispatched by `hid_lg3ff_play`,
and no other effect dispatches anything. -/
theorem play_eq (host : byte_order) (dev : hid_device) (effect : ff_effect) :
    hid_lg3ff_play host dev effect
      = match hid_lg3ff_play_report host effect with
        | some report => (hig_lg3ff_send host dev report, 0)
        | none => (dev, 0) := by
  unfold hid_lg3ff_play hid_lg3ff_play_report
  by_cases h : effect.type = FF_CONSTANT <;> simp [h]

theorem set_autocenter_eq (host : byte_order) (dev : hid_device) (magnitude : Nat) :
    hid_lg3ff_set_autocenter host dev magnitude
      = hig_lg3ff_send host dev (hid_lg3ff_set_autocenter_report magnitude) := rfl

/-- Memory image of the report of a constant-force effect with levels giving
the s16 values `x` and `y`, on either host. -/
theorem constant_report_bytes (host : byte_order) (x y : Int) :
    ({ hid_lg3ff_report.zero with
        x := { hid_lg3ff_report.zero.x with constant_force := lg3ff_cpu_to_sle16 host x },
        y := { hid_lg3ff_report.zero.y with constant_force := lg3ff_cpu_to_sle16 host y }
      } : hid_lg3ff_report).bytes host
      = [u16_of_s16 x % 256, u16_of_s16 x / 256] ++ List.replicate 28 0
        ++ [u16_of_s16 y % 256, u16_of_s16 y / 256] ++ List.replicate 31 0 := by
  simp only [hid_lg3ff_report.bytes, hid_lg3ff_axis.bytes, s16_bytes_cpu_to_sle16,
    hid_lg3ff_report.zero, hid_lg3ff_axis.zero, s16_bytes_zero, u8_bytes, s8_bytes,
    u8_array_bytes, u8_of_s8, List.ofFn_succ, List.ofFn_zero, List.replicate]
  simp

/-- Memory image of the autocenter report with scaled magnitude `f`. -/
theorem autocenter_report_bytes (host : byte_order) (f : Int) :
    ({ hid_lg3ff_report.zero with
        x := { hid_lg3ff_report.zero.x with autocenter_strength := 127, autocenter_force := f },
        y := { hid_lg3ff_report.zero.y with autocenter_strength := 127, autocenter_force := f }
      } : hid_lg3ff_report).bytes host
      = [0, 0, 0, 127, u8_of_s8 f] ++ List.replicate 25 0
        ++ [0, 0, 0, 127, u8_of_s8 f] ++ List.replicate 28 0 := by
  simp only [hid_lg3ff_report.bytes, hid_lg3ff_axis.bytes,
    hid_lg3ff_report.zero, hid_lg3ff_axis.zero, s16_bytes_zero, u8_bytes, s8_bytes,
    u8_array_bytes, u8_of_s8, List.ofFn_succ, List.ofFn_zero, List.replicate]
  simp

theorem s16_of_int_s32_of_int (v : Int) : s16_of_int (s32_of_int v) = s16_of_int v := by
  unfold s16_of_int s32_of_int
  simp only
  have h : (if v % 4294967296 < 2147483648 then v % 4294967296
      else v % 4294967296 - 4294967296) % 65536 = v % 65536 := by
    split <;> omega
  rw [h]

/-- The s16 value computed at source lines 99-100 from a level: the int
negation and shift never matter beyond their low 16 bits. -/
theorem s16_neg_shl (s : Int) :
    s16_of_int (int_shl (int_neg s) 8) = s16_of_int (-s * 256) := by
  unfold int_shl int_neg
  rw [s16_of_int_s32_of_int]
  unfold s16_of_int s32_of_int
  simp only
  have h : ((if -s % 4294967296 < 2147483648 then -s % 4294967296
      else -s % 4294967296 - 4294967296) * 2 ^ 8) % 65536 = (-s * 256) % 65536 := by
    split <;> omega
  rw [h]

/-- The report of a constant-force effect, written with the values of source
lines 99-100. -/
theorem play_report_constant (host : byte_order) (effect : ff_effect)
    (htype : effect.type = FF_CONSTANT) :
    hid_lg3ff_play_report host effect
      = some { hid_lg3ff_report.zero with
          x := { hid_lg3ff_report.zero.x with
            constant_force := lg3ff_cpu_to_sle16 host (s16_of_int (-effect.u.ramp.start_level * 256)) },
          y := { hid_lg3ff_report.zero.y with
            constant_force := lg3ff_cpu_to_sle16 host (s16_of_int (-effect.u.ramp.end_level * 256)) } } := by
  unfold hid_lg3ff_play_report
  simp only [htype, if_true, s16_neg_shl]

theorem s16_of_int_idem (v : Int) : s16_of_int (s16_of_int v) = s16_of_int v := by
  unfold s16_of_int
  simp only
  have h : (if v % 65536 < 32768 then v % 65536 else v % 65536 - 65536) % 65536
      = v % 65536 := by
    split <;> omega
  rw [h]


/-! ## Constant force: sign and scale -/

/-- C1: for every effect of type FF_CONSTANT, whatever its two levels, the
report built by `hid_lg3ff_play` (and dispatched by it) has an x.constant_force
that stands for the signed 16-bit reading of ((-start_level) * 256) mod 2^16
and a y.constant_force that stands for that of ((-end_level) * 256) mod 2^16,
on either host, the member holding that very number on a little-endian host;
with levels 100 and -50 these are -25600, wire bytes 0x00 0x9C
at offsets 0-1, and 12800, wire bytes 0x00 0x32 at offsets 30-31. The levels
range over all integers here, so in particular over all s16 values. -/
theorem play_constant_force_sign_scale (host : byte_order) (dev : hid_device)
    (effect : ff_effect) (htype : effect.type = FF_CONSTANT) :
    ∃ report : hid_lg3ff_report,
      hid_lg3ff_play_report host effect = some report
      ∧ hid_lg3ff_play host dev effect = (hig_lg3ff_send host dev report, 0)
      ∧ lg3ff_sle16_to_cpu host report.x.constant_force
          = (if (-effect.u.ramp.start_level * 256) % 65536 < 32768
              then (-effect.u.ramp.start_level * 256) % 65536
              else (-effect.u.ramp.start_level * 256) % 65536 - 65536)
      ∧ lg3ff_sle16_to_cpu host report.y.constant_force
          = (if (-effect.u.ramp.end_level * 256) % 65536 < 32768
              then (-effect.u.ramp.end_level * 256) % 65536
              else (-effect.u.ramp.end_level * 256) % 65536 - 65536)
      ∧ (host = .little_endian →
          report.x.constant_force
            = (if (-effect.u.ramp.start_level * 256) % 65536 < 32768
                then (-effect.u.ramp.start_level * 256) % 65536
                else (-effect.u.ramp.start_level * 256) % 65536 - 65536)
          ∧ report.y.constant_force
            = (if (-effect.u.ramp.end_level * 256) % 65536 < 32768
                then (-effect.u.ramp.end_level * 256) % 65536
                else (-effect.u.ramp.end_level * 256) % 65536 - 65536))
      ∧ (effect.u.ramp.start_level = 100 → effect.u.ramp.end_level = -50 →
          lg3ff_sle16_to_cpu host report.x.constant_force = -25600
          ∧ (report.bytes host).take 2 = [0x00, 0x9C]
          ∧ lg3ff_sle16_to_cpu host report.y.constant_force = 12800
          ∧ ((report.bytes host).drop 30).take 2 = [0x00, 0x32]) := by
  refine ⟨_, play_report_constant host effect htype, ?_, ?_, ?_, ?_, ?_⟩
  · rw [play_eq, play_report_constant host effect htype]
  · simp only [sle16_to_cpu_cpu_to_sle16, s16_of_int_idem]
    rfl
  · simp only [sle16_to_cpu_cpu_to_sle16, s16_of_int_idem]
    rfl
  · intro hhost
    subst hhost
    simp only [cpu_to_sle16_little_endian, s16_of_int_idem]
    exact ⟨rfl, rfl⟩
  · intro hs he
    simp only [sle16_to_cpu_cpu_to_sle16, s16_of_int_idem, constant_report_bytes, hs, he]
    decide

/-- The theorem for C1 at the effect with levels 100 and -50 on a big-endian
host. -/
theorem play_constant_force_sign_scale_witness :
    ∃ report : hid_lg3ff_report,
      hid_lg3ff_play_report .big_endian
          { type := FF_CONSTANT, u := { ramp := { start_level := 100, end_level := -50 } } }
        = some report
      ∧ lg3ff_sle16_to_cpu .big_endian report.x.constant_force = -25600
      ∧ (report.bytes .big_endian).take 2 = [0x00, 0x9C]
      ∧ lg3ff_sle16_to_cpu .big_endian report.y.constant_force = 12800
      ∧ ((report.bytes .big_endian).drop 30).take 2 = [0x00, 0x32] := by
  obtain ⟨report, h1, _, _, _, _, h5⟩ := play_constant_force_sign_scale .big_endian
    { input := { ffbit := fun _ => false, ff := none }, report_count := 63,
      value := fun _ => 0, requests := [] }
    { type := FF_CONSTANT, u := { ramp := { start_level := 100, end_level := -50 } } } rfl
  exact ⟨report, h1, h5 rfl rfl⟩

/-! ## Autocenter: scale -/

theorem autocenter_mag_scaled (m : Nat) (hm : m < 65536) :
    s8_of_int (int_shr (m : Int) 9) = ((m / 512 : Nat) : Int) := by
  unfold s8_of_int int_shr
  simp only
  have h : (m : Int) / 2 ^ 9 = ((m / 512 : Nat) : Int) := by
    norm_num
  rw [h]
  have h2 : ((m / 512 : Nat) : Int) % 256 = ((m / 512 : Nat) : Int) := by omega
  rw [h2, if_pos (by omega)]

theorem set_autocenter_report_eq (m : Nat) :
    hid_lg3ff_set_autocenter_report m
      = { hid_lg3ff_report.zero with
          x := { hid_lg3ff_report.zero.x with
            autocenter_strength := 127,
            autocenter_force := s8_of_int (int_shr (m : Int) 9) },
          y := { hid_lg3ff_report.zero.y with
            autocenter_strength := 127,
            autocenter_force := s8_of_int (int_shr (m : Int) 9) } } := rfl

/-- C2: for every 16-bit unsigned magnitude m the report built (and
dispatched) by `hid_lg3ff_set_autocenter` has autocenter_force = m / 512 =
m >> 9 and autocenter_strength = 127 on both axes, the two axis blocks being
equal, and these are the bytes at offsets 3, 4 and 33, 34 of its image;
magnitude 1024 gives force 2 and magnitude 0 gives force 0, both with
strength 127. -/
theorem set_autocenter_scale (host : byte_order) (dev : hid_device) (m : Nat)
    (hm : m < 65536) :
    hid_lg3ff_set_autocenter host dev m
        = hig_lg3ff_send host dev (hid_lg3ff_set_autocenter_report m)
    ∧ (hid_lg3ff_set_autocenter_report m).x.autocenter_force = ((m / 512 : Nat) : Int)
    ∧ (hid_lg3ff_set_autocenter_report m).x.autocenter_force = ((m >>> 9 : Nat) : Int)
    ∧ (hid_lg3ff_set_autocenter_report m).x.autocenter_strength = 127
    ∧ (hid_lg3ff_set_autocenter_report m).y.autocenter_force = ((m / 512 : Nat) : Int)
    ∧ (hid_lg3ff_set_autocenter_report m).y.autocenter_strength = 127
    ∧ (hid_lg3ff_set_autocenter_report m).x = (hid_lg3ff_set_autocenter_report m).y
    ∧ (((hid_lg3ff_set_autocenter_report m).bytes host).drop 3).take 2 = [127, m / 512]
    ∧ (((hid_lg3ff_set_autocenter_report m).bytes host).drop 33).take 2 = [127, m / 512]
    ∧ (hid_lg3ff_set_autocenter_report 1024).x.autocenter_force = 2
    ∧ (hid_lg3ff_set_autocenter_report 1024).x.autocenter_strength = 127
    ∧ (hid_lg3ff_set_autocenter_report 1024).y.autocenter_force = 2
    ∧ (hid_lg3ff_set_autocenter_report 1024).y.autocenter_strength = 127
    ∧ (hid_lg3ff_set_autocenter_report 0).x.autocenter_force = 0
    ∧ (hid_lg3ff_set_autocenter_report 0).x.autocenter_strength = 127
    ∧ (hid_lg3ff_set_autocenter_report 0).y.autocenter_force = 0
    ∧ (hid_lg3ff_set_autocenter_report 0).y.autocenter_strength = 127 := by
  have hf : (hid_lg3ff_set_autocenter_report m).x.autocenter_force
      = ((m / 512 : Nat) : Int) := by
    simp only [set_autocenter_report_eq]
    exact autocenter_mag_scaled m hm
  have hb : (u8_of_s8 ((m / 512 : Nat) : Int)) = m / 512 := by
    unfold u8_of_s8; omega
  refine ⟨rfl, hf, ?_, rfl, hf, rfl, rfl, ?_, ?_, by decide, rfl, by decide, rfl,
    by decide, rfl, by decide, rfl⟩
  · rw [hf, Nat.shiftRight_eq_div_pow]
  · rw [set_autocenter_report_eq, autocenter_report_bytes, autocenter_mag_scaled m hm, hb]
    rfl
  · rw [set_autocenter_report_eq, autocenter_report_bytes, autocenter_mag_scaled m hm, hb]
    rfl

/-- The theorem for C2 at magnitude 1024 on a little-endian host. -/
theorem set_autocenter_scale_witness :
    (1024 : Nat) < 65536
    ∧ (hid_lg3ff_set_autocenter_report 1024).x.autocenter_force = ((1024 / 512 : Nat) : Int)
    ∧ (((hid_lg3ff_set_autocenter_report 1024).bytes .little_endian).drop 3).take 2
        = [127, 1024 / 512] :=
  have h := set_autocenter_scale .little_endian
    { input := { ffbit := fun _ => false, ff := none }, report_count := 63,
      value := fun _ => 0, requests := [] } 1024 (by decide)
  ⟨by decide, h.2.1, h.2.2.2.2.2.2.2.1⟩

/-! ## Layout of the report -/

/-- C3: for every pair of axis blocks (and trailing padding) the memory image
of the report is exactly 63 bytes, the checked value of sizeof; each axis
block is exactly 30 bytes with constant_force at offsets 0-1, padding at 2,
autocenter_strength at 3, autocenter_force at 4, autocenter_damping at 5,
spring_deadzone_neg at 6-7, spring_deadzone_pos at 8-9, spring_coeff_neg at
10, spring_coeff_pos at 11, spring_saturation at 12-13, padding at 14-21,
damper_coeff_neg at 22, damper_coeff_pos at 23, damper_saturation at 24-25 and
padding at 26-29; the X block is bytes 0-29, the Y block bytes 30-59 and the 3
reserved bytes are 60-62. -/
theorem report_layout (host : byte_order) (x y : hid_lg3ff_axis) (p : Fin 3 → Nat) :
    (({ x := x, y := y, _padding := p } : hid_lg3ff_report).bytes host).length = 63
    ∧ sizeof_hid_lg3ff_report = 63
    ∧ (x.bytes host).length = 30 ∧ (y.bytes host).length = 30
    ∧ (({ x := x, y := y, _padding := p } : hid_lg3ff_report).bytes host).take 30
        = x.bytes host
    ∧ ((({ x := x, y := y, _padding := p } : hid_lg3ff_report).bytes host).drop 30).take 30
        = y.bytes host
    ∧ (({ x := x, y := y, _padding := p } : hid_lg3ff_report).bytes host).drop 60
        = [p 0 % 256, p 1 % 256, p 2 % 256]
    ∧ (∀ a : hid_lg3ff_axis,
        (a.bytes host).take 2 = s16_bytes host a.constant_force
        ∧ ((a.bytes host).drop 2).take 1 = [a._padding0 % 256]
        ∧ ((a.bytes host).drop 3).take 1 = [u8_of_s8 a.autocenter_strength]
        ∧ ((a.bytes host).drop 4).take 1 = [u8_of_s8 a.autocenter_force]
        ∧ ((a.bytes host).drop 5).take 1 = [u8_of_s8 a.autocenter_damping]
        ∧ ((a.bytes host).drop 6).take 2 = s16_bytes host a.spring_deadzone_neg
        ∧ ((a.bytes host).drop 8).take 2 = s16_bytes host a.spring_deadzone_pos
        ∧ ((a.bytes host).drop 10).take 1 = [u8_of_s8 a.spring_coeff_neg]
        ∧ ((a.bytes host).drop 11).take 1 = [u8_of_s8 a.spring_coeff_pos]
        ∧ ((a.bytes host).drop 12).take 2 = s16_bytes host a.spring_saturation
        ∧ ((a.bytes host).drop 14).take 8
            = [a._padding1 0 % 256, a._padding1 1 % 256, a._padding1 2 % 256,
               a._padding1 3 % 256, a._padding1 4 % 256, a._padding1 5 % 256,
               a._padding1 6 % 256, a._padding1 7 % 256]
        ∧ ((a.bytes host).drop 22).take 1 = [u8_of_s8 a.damper_coeff_neg]
        ∧ ((a.bytes host).drop 23).take 1 = [u8_of_s8 a.damper_coeff_pos]
        ∧ ((a.bytes host).drop 24).take 2 = s16_bytes host a.damper_saturation
        ∧ (a.bytes host).drop 26
            = [a._padding2 0 % 256, a._padding2 1 % 256, a._padding2 2 % 256,
               a._padding2 3 % 256]) := by
  refine ⟨report_bytes_length host _, sizeof_hid_lg3ff_report_eq, axis_bytes_length host x,
    axis_bytes_length host y, ?_, ?_, ?_, ?_⟩
  · simp only [hid_lg3ff_report.bytes, List.append_assoc]
    rw [List.take_append_of_le_length (by rw [axis_bytes_length])]
    rw [List.take_of_length_le (by rw [axis_bytes_length])]
  · simp only [hid_lg3ff_report.bytes, List.append_assoc]
    rw [List.drop_append_of_le_length (by rw [axis_bytes_length])]
    rw [List.drop_of_length_le (by rw [axis_bytes_length]), List.nil_append]
    rw [List.take_append_of_le_length (by rw [axis_bytes_length])]
    rw [List.take_of_length_le (by rw [axis_bytes_length])]
  · simp only [hid_lg3ff_report.bytes]
    rw [List.drop_append_of_le_length (by simp [axis_bytes_length])]
    rw [List.drop_of_length_le (by simp [axis_bytes_length]), List.nil_append]
    simp [u8_array_bytes, List.ofFn_succ]
  · intro a
    cases host <;>
      simp [hid_lg3ff_axis.bytes, s16_bytes, u8_bytes, s8_bytes, u8_array_bytes,
        List.ofFn_succ] <;>
      exact ⟨⟨rfl, rfl, rfl, rfl, rfl⟩, rfl⟩

/-! ## Byte order of the constant force -/

theorem and_0xFF (n : Nat) : n &&& 0xFF = n % 256 :=
  Nat.and_pow_two_sub_one_eq_mod n 8

theorem lsb_first (n : Nat) (h : n < 65536) :
    [n % 256, n / 256] = [n &&& 0xFF, (n >>> 8) &&& 0xFF] := by
  rw [and_0xFF, and_0xFF, Nat.shiftRight_eq_div_pow]
  congr 1
  congr 1
  omega

/-- C4: for every constant-force effect and on either host, with v the bit
pattern of the s16 value x of source line 99 (respectively y of line 100),
which line 106 (107) stores in x.constant_force (y.constant_force) through
`lg3ff_cpu_to_sle16`, the bytes of the report at offsets 0 and 1 (respectively
30 and 31) are v & 0xFF followed by (v >> 8) & 0xFF, least-significant byte
first; these are also the values 0, 1 (30, 31) of the transport buffer after
the call. More generally the memory image of any value stored through
`lg3ff_cpu_to_sle16` is its low byte followed by its high byte, on either
host. -/
theorem constant_force_bytes_lsb_first (host : byte_order) (dev : hid_device)
    (effect : ff_effect) (htype : effect.type = FF_CONSTANT) :
    ∃ report : hid_lg3ff_report,
      hid_lg3ff_play_report host effect = some report
      ∧ report.x.constant_force
          = lg3ff_cpu_to_sle16 host
              (s16_of_int (int_shl (int_neg effect.u.ramp.start_level) 8))
      ∧ report.y.constant_force
          = lg3ff_cpu_to_sle16 host
              (s16_of_int (int_shl (int_neg effect.u.ramp.end_level) 8))
      ∧ (report.bytes host).take 2
          = [u16_of_s16 (s16_of_int (int_shl (int_neg effect.u.ramp.start_level) 8)) &&& 0xFF,
             (u16_of_s16 (s16_of_int (int_shl (int_neg effect.u.ramp.start_level) 8)) >>> 8)
               &&& 0xFF]
      ∧ ((report.bytes host).drop 30).take 2
          = [u16_of_s16 (s16_of_int (int_shl (int_neg effect.u.ramp.end_level) 8)) &&& 0xFF,
             (u16_of_s16 (s16_of_int (int_shl (int_neg effect.u.ramp.end_level) 8)) >>> 8)
               &&& 0xFF]
      ∧ (hid_lg3ff_play host dev effect).1.buffer.take 2
          = [((u16_of_s16 (s16_of_int (int_shl (int_neg effect.u.ramp.start_level) 8))
                &&& 0xFF : Nat) : Int),
             (((u16_of_s16 (s16_of_int (int_shl (int_neg effect.u.ramp.start_level) 8)) >>> 8)
                &&& 0xFF : Nat) : Int)]
      ∧ ((hid_lg3ff_play host dev effect).1.buffer.drop 30).take 2
          = [((u16_of_s16 (s16_of_int (int_shl (int_neg effect.u.ramp.end_level) 8))
                &&& 0xFF : Nat) : Int),
             (((u16_of_s16 (s16_of_int (int_shl (int_neg effect.u.ramp.end_level) 8)) >>> 8)
                &&& 0xFF : Nat) : Int)]
      ∧ (∀ val : Int, s16_bytes host (lg3ff_cpu_to_sle16 host val)
          = [u16_of_s16 val &&& 0xFF, (u16_of_s16 val >>> 8) &&& 0xFF]) := by
  have hx : (({ hid_lg3ff_report.zero with
        x := { hid_lg3ff_report.zero.x with
          constant_force := lg3ff_cpu_to_sle16 host (s16_of_int (-effect.u.ramp.start_level * 256)) },
        y := { hid_lg3ff_report.zero.y with
          constant_force := lg3ff_cpu_to_sle16 host (s16_of_int (-effect.u.ramp.end_level * 256)) }
      } : hid_lg3ff_report).bytes host).take 2
      = [u16_of_s16 (s16_of_int (-effect.u.ramp.start_level * 256)) &&& 0xFF,
         (u16_of_s16 (s16_of_int (-effect.u.ramp.start_level * 256)) >>> 8) &&& 0xFF] := by
    rw [constant_report_bytes, ← lsb_first _ (u16_of_s16_lt _)]
    rfl
  have hy : ((({ hid_lg3ff_report.zero with
        x := { hid_lg3ff_report.zero.x with
          constant_force := lg3ff_cpu_to_sle16 host (s16_of_int (-effect.u.ramp.start_level * 256)) },
        y := { hid_lg3ff_report.zero.y with
          constant_force := lg3ff_cpu_to_sle16 host (s16_of_int (-effect.u.ramp.end_level * 256)) }
      } : hid_lg3ff_report).bytes host).drop 30).take 2
      = [u16_of_s16 (s16_of_int (-effect.u.ramp.end_level * 256)) &&& 0xFF,
         (u16_of_s16 (s16_of_int (-effect.u.ramp.end_level * 256)) >>> 8) &&& 0xFF] := by
    rw [constant_report_bytes, ← lsb_first _ (u16_of_s16_lt _)]
    rfl
  refine ⟨_, play_report_constant host effect htype, ?_, ?_, ?_, ?_, ?_, ?_, ?_⟩
  · rw [s16_neg_shl]
  · rw [s16_neg_shl]
  · rw [s16_neg_shl]
    exact hx
  · rw [s16_neg_shl]
    exact hy
  · rw [play_eq, play_report_constant host effect htype]
    simp only [send_buffer, s16_neg_shl]
    rw [← List.map_take, hx]
    rfl
  · rw [play_eq, play_report_constant host effect htype]
    simp only [send_buffer, s16_neg_shl]
    rw [← List.map_drop, ← List.map_take, hy]
    rfl
  · intro val
    rw [s16_bytes_cpu_to_sle16, lsb_first _ (u16_of_s16_lt _)]

/-- The theorem for C4 at the effect with levels 100 and -50 on a big-endian
host: x of line 99 is -25600, bit pattern 0x9C00, the member holds the swapped
pattern 0x009C = 156, and the report starts with the bytes 0x00 0x9C. -/
theorem constant_force_bytes_lsb_first_witness :
    ∃ report : hid_lg3ff_report,
      hid_lg3ff_play_report .big_endian
          { type := FF_CONSTANT, u := { ramp := { start_level := 100, end_level := -50 } } }
        = some report
      ∧ s16_of_int (int_shl (int_neg 100) 8) = -25600
      ∧ u16_of_s16 (s16_of_int (int_shl (int_neg 100) 8)) = 0x9C00
      ∧ report.x.constant_force = 156
      ∧ (report.bytes .big_endian).take 2 = [0x00, 0x9C] := by
  obtain ⟨report, h1, h2, _, h4, _⟩ := constant_force_bytes_lsb_first .big_endian
    { input := { ffbit := fun _ => false, ff := none }, report_count := 63,
      value := fun _ => 0, requests := [] }
    { type := FF_CONSTANT, u := { ramp := { start_level := 100, end_level := -50 } } } rfl
  refine ⟨report, h1, by decide, by decide, ?_, ?_⟩
  · rw [h2]; decide
  · rw [h4]; decide

/-! ## What a constant-force report leaves at zero -/

theorem constant_bytes_zero (a b c d : Nat) (i : Nat) (hi : i < 63)
    (h0 : i ≠ 0) (h1 : i ≠ 1) (h30 : i ≠ 30) (h31 : i ≠ 31) :
    ([a, b] ++ List.replicate 28 0 ++ [c, d] ++ List.replicate 31 0)[i]? = some 0 := by
  interval_cases i <;> first | contradiction | rfl

/-- C5: for every effect of type FF_CONSTANT the report built by
`hid_lg3ff_play` has every member other than x.constant_force and
y.constant_force equal to zero (blanking those two members gives the all-zero
report), and each of its 63 bytes other than those at offsets 0, 1, 30 and 31
is 0, in the structure and in the transport buffer after the call. -/
theorem play_constant_rest_zero (host : byte_order) (dev : hid_device)
    (effect : ff_effect) (htype : effect.type = FF_CONSTANT) :
    ∃ report : hid_lg3ff_report,
      hid_lg3ff_play_report host effect = some report
      ∧ ({ report with
            x := { report.x with constant_force := 0 },
            y := { report.y with constant_force := 0 } } : hid_lg3ff_report)
          = hid_lg3ff_report.zero
      ∧ (report.bytes host).length = 63
      ∧ (∀ i : Nat, i < 63 → i ≠ 0 → i ≠ 1 → i ≠ 30 → i ≠ 31 →
          (report.bytes host)[i]? = some 0)
      ∧ (∀ i : Nat, i < 63 → i ≠ 0 → i ≠ 1 → i ≠ 30 → i ≠ 31 →
          (hid_lg3ff_play host dev effect).1.value i = 0) := by
  refine ⟨_, play_report_constant host effect htype, rfl, report_bytes_length host _, ?_, ?_⟩
  · intro i hi h0 h1 h30 h31
    rw [constant_report_bytes]
    exact constant_bytes_zero _ _ _ _ i hi h0 h1 h30 h31
  · intro i hi h0 h1 h30 h31
    rw [play_eq, play_report_constant host effect htype]
    simp only [send_value, if_pos hi]
    rw [constant_report_bytes, List.getD_eq_getElem?_getD,
      constant_bytes_zero _ _ _ _ i hi h0 h1 h30 h31]
    rfl

/-- The theorem for C5 at the effect with levels 100 and -50 on a little-endian
host: byte 2 of the report is 0. -/
theorem play_constant_rest_zero_witness :
    ∃ report : hid_lg3ff_report,
      hid_lg3ff_play_report .little_endian
          { type := FF_CONSTANT, u := { ramp := { start_level := 100, end_level := -50 } } }
        = some report
      ∧ (report.bytes .little_endian)[2]? = some 0 := by
  obtain ⟨report, h1, _, _, h4, _⟩ := play_constant_rest_zero .little_endian
    { input := { ffbit := fun _ => false, ff := none }, report_count := 63,
      value := fun _ => 0, requests := [] }
    { type := FF_CONSTANT, u := { ramp := { start_level := 100, end_level := -50 } } } rfl
  exact ⟨report, h1, h4 2 (by decide) (by decide) (by decide) (by decide) (by decide)⟩

/-! ## Effects of other types -/

/-- C6: for every effect whose type is not FF_CONSTANT, `hid_lg3ff_play`
returns 0 and leaves the device as it was, so no request is issued and the
transport buffer is unchanged; and for every effect of any type it returns
0. -/
theorem play_other_type_noop (host : byte_order) (dev : hid_device) (effect : ff_effect) :
    (effect.type ≠ FF_CONSTANT →
        hid_lg3ff_play host dev effect = (dev, 0)
        ∧ (hid_lg3ff_play host dev effect).1.requests = dev.requests
        ∧ (hid_lg3ff_play host dev effect).1.value = dev.value)
    ∧ (hid_lg3ff_play host dev effect).2 = 0 := by
  constructor
  · intro h
    have : hid_lg3ff_play host dev effect = (dev, 0) := by
      unfold hid_lg3ff_play
      simp [h]
    rw [this]
    exact ⟨rfl, rfl, rfl⟩
  · unfold hid_lg3ff_play
    by_cases h : effect.type = FF_CONSTANT <;> simp [h]

/-- The theorem for C6 at an effect of type FF_AUTOCENTER's number (0x61),
which is not FF_CONSTANT: the request list stays empty. -/
theorem play_other_type_noop_witness :
    (0x61 : Nat) ≠ FF_CONSTANT
    ∧ (hid_lg3ff_play .little_endian
        { input := { ffbit := fun _ => false, ff := none }, report_count := 63,
          value := fun _ => 7, requests := [] }
        { type := 0x61, u := { ramp := { start_level := 100, end_level := -50 } } }).1.requests
        = []
    ∧ (hid_lg3ff_play .little_endian
        { input := { ffbit := fun _ => false, ff := none }, report_count := 63,
          value := fun _ => 7, requests := [] }
        { type := 0x61, u := { ramp := { start_level := 100, end_level := -50 } } }).2 = 0 :=
  have h := play_other_type_noop .little_endian
    { input := { ffbit := fun _ => false, ff := none }, report_count := 63,
      value := fun _ => 7, requests := [] }
    { type := 0x61, u := { ramp := { start_level := 100, end_level := -50 } } }
  ⟨by decide, (h.1 (by decide)).2.1, h.2⟩

/-! ## Autocenter: sign of the scaled force -/

/-- C7, as stated, fails: magnitude 32768 has its top bit set, yet the
autocenter_force built for it is 64, byte 0x40 at offsets 4 and 34, which is
not negative. -/
theorem set_autocenter_top_bit_not_negative :
    (32768 : Nat) < 65536 ∧ 32768 ≤ (32768 : Nat)
    ∧ (hid_lg3ff_set_autocenter_report 32768).x.autocenter_force = 64
    ∧ (hid_lg3ff_set_autocenter_report 32768).y.autocenter_force = 64
    ∧ ¬ (hid_lg3ff_set_autocenter_report 32768).x.autocenter_force < 0
    ∧ ((hid_lg3ff_set_autocenter_report 32768).bytes .little_endian)[4]? = some 0x40
    ∧ ((hid_lg3ff_set_autocenter_report 32768).bytes .little_endian)[34]? = some 0x40 := by
  refine ⟨by decide, by decide, by decide, by decide, by decide, ?_, ?_⟩
  · rw [set_autocenter_report_eq, autocenter_report_bytes]
    decide
  · rw [set_autocenter_report_eq, autocenter_report_bytes]
    decide

/-- C7, amended: for every 16-bit magnitude the autocenter_force built by
`hid_lg3ff_set_autocenter` is m / 512, between 0 and 127 and so never
negative; a magnitude with its top bit set gives a force from 64 to 127 and
one with its top bit clear a force from 0 to 63. -/
theorem set_autocenter_force_nonneg (m : Nat) (hm : m < 65536) :
    (hid_lg3ff_set_autocenter_report m).x.autocenter_force = ((m / 512 : Nat) : Int)
    ∧ (hid_lg3ff_set_autocenter_report m).y.autocenter_force
        = (hid_lg3ff_set_autocenter_report m).x.autocenter_force
    ∧ 0 ≤ (hid_lg3ff_set_autocenter_report m).x.autocenter_force
    ∧ (hid_lg3ff_set_autocenter_report m).x.autocenter_force ≤ 127
    ∧ (32768 ≤ m → 64 ≤ (hid_lg3ff_set_autocenter_report m).x.autocenter_force)
    ∧ (m < 32768 → (hid_lg3ff_set_autocenter_report m).x.autocenter_force ≤ 63) := by
  have hf : (hid_lg3ff_set_autocenter_report m).x.autocenter_force
      = ((m / 512 : Nat) : Int) := by
    simp only [set_autocenter_report_eq]
    exact autocenter_mag_scaled m hm
  refine ⟨hf, rfl, ?_, ?_, ?_, ?_⟩
  · rw [hf]; omega
  · rw [hf]; omega
  · intro h; rw [hf]; omega
  · intro h; rw [hf]; omega

/-- The amended C7 at magnitude 65535, the largest one: the force is 127. -/
theorem set_autocenter_force_nonneg_witness :
    (65535 : Nat) < 65536 ∧ 32768 ≤ (65535 : Nat)
    ∧ (hid_lg3ff_set_autocenter_report 65535).x.autocenter_force = ((65535 / 512 : Nat) : Int)
    ∧ 64 ≤ (hid_lg3ff_set_autocenter_report 65535).x.autocenter_force :=
  have h := set_autocenter_force_nonneg 65535 (by decide)
  ⟨by decide, by decide, h.1, h.2.2.2.2.1 (by decide)⟩

/-! ## What an autocenter report leaves at zero -/

theorem autocenter_bytes_zero (f : Nat) (i : Nat) (hi : i < 63)
    (h3 : i ≠ 3) (h4 : i ≠ 4) (h33 : i ≠ 33) (h34 : i ≠ 34) :
    ([0, 0, 0, 127, f] ++ List.replicate 25 0
      ++ [0, 0, 0, 127, f] ++ List.replicate 28 0)[i]? = some 0 := by
  interval_cases i <;> first | contradiction | rfl

/-- C8: for every magnitude the report built by `hid_lg3ff_set_autocenter`
has autocenter_damping = 0 on both axes and nothing set but the strength and
force of the two axes (blanking those four members gives the all-zero report,
so constant_force, the spring and damper members and all padding are zero);
each of its 63 bytes other than those at offsets 3, 4, 33 and 34 is 0, in the
structure and in the transport buffer after the call. -/
theorem set_autocenter_rest_zero (host : byte_order) (dev : hid_device) (m : Nat) :
    (hid_lg3ff_set_autocenter_report m).x.autocenter_damping = 0
    ∧ (hid_lg3ff_set_autocenter_report m).y.autocenter_damping = 0
    ∧ (hid_lg3ff_set_autocenter_report m).x.constant_force = 0
    ∧ (hid_lg3ff_set_autocenter_report m).y.constant_force = 0
    ∧ ({ hid_lg3ff_set_autocenter_report m with
          x := { (hid_lg3ff_set_autocenter_report m).x with
            autocenter_strength := 0, autocenter_force := 0 },
          y := { (hid_lg3ff_set_autocenter_report m).y with
            autocenter_strength := 0, autocenter_force := 0 } } : hid_lg3ff_report)
        = hid_lg3ff_report.zero
    ∧ ((hid_lg3ff_set_autocenter_report m).bytes host).length = 63
    ∧ (∀ i : Nat, i < 63 → i ≠ 3 → i ≠ 4 → i ≠ 33 → i ≠ 34 →
        ((hid_lg3ff_set_autocenter_report m).bytes host)[i]? = some 0)
    ∧ (∀ i : Nat, i < 63 → i ≠ 3 → i ≠ 4 → i ≠ 33 → i ≠ 34 →
        (hid_lg3ff_set_autocenter host dev m).value i = 0) := by
  refine ⟨rfl, rfl, rfl, rfl, rfl, report_bytes_length host _, ?_, ?_⟩
  · intro i hi h3 h4 h33 h34
    rw [set_autocenter_report_eq, autocenter_report_bytes]
    exact autocenter_bytes_zero _ i hi h3 h4 h33 h34
  · intro i hi h3 h4 h33 h34
    rw [set_autocenter_eq]
    simp only [send_value, if_pos hi]
    rw [set_autocenter_report_eq, autocenter_report_bytes, List.getD_eq_getElem?_getD,
      autocenter_bytes_zero _ i hi h3 h4 h33 h34]
    rfl

/-- The theorem for C8 at magnitude 1024 on a big-endian host: byte 5, the
autocenter_damping of X, is 0 in the report and in the buffer. -/
theorem set_autocenter_rest_zero_witness :
    ((hid_lg3ff_set_autocenter_report 1024).bytes .big_endian)[5]? = some 0
    ∧ (hid_lg3ff_set_autocenter .big_endian
        { input := { ffbit := fun _ => false, ff := none }, report_count := 63,
          value := fun _ => 7, requests := [] } 1024).value 5 = 0 :=
  have h := set_autocenter_rest_zero .big_endian
    { input := { ffbit := fun _ => false, ff := none }, report_count := 63,
      value := fun _ => 7, requests := [] } 1024
  ⟨h.2.2.2.2.2.2.1 5 (by decide) (by decide) (by decide) (by decide) (by decide),
   h.2.2.2.2.2.2.2 5 (by decide) (by decide) (by decide) (by decide) (by decide)⟩

/-! ## Each call determines the whole report -/

/-- C9: whatever the transport buffer held before, after `hid_lg3ff_play` of a
constant-force effect e its first 63 values are the image of the report of e
and nothing else: they are the same from any two starting devices, playing e
twice leaves what playing it once leaves, an autocenter call before e leaves
no trace (values 3, 4, 33 and 34 are 0 afterwards), and an autocenter call
after e leaves what that autocenter call alone leaves. -/
theorem dispatch_overwrites_buffer (host : byte_order) (dev other : hid_device)
    (effect : ff_effect) (m : Nat) (htype : effect.type = FF_CONSTANT) :
    (∃ report : hid_lg3ff_report,
        hid_lg3ff_play_report host effect = some report
        ∧ (hid_lg3ff_play host dev effect).1.buffer = (report.bytes host).map Int.ofNat)
    ∧ (hid_lg3ff_play host other effect).1.buffer = (hid_lg3ff_play host dev effect).1.buffer
    ∧ (hid_lg3ff_play host (hid_lg3ff_play host dev effect).1 effect).1.buffer
        = (hid_lg3ff_play host dev effect).1.buffer
    ∧ (hid_lg3ff_play host (hid_lg3ff_set_autocenter host dev m) effect).1.buffer
        = (hid_lg3ff_play host dev effect).1.buffer
    ∧ (hid_lg3ff_play host (hid_lg3ff_set_autocenter host dev m) effect).1.value 3 = 0
    ∧ (hid_lg3ff_play host (hid_lg3ff_set_autocenter host dev m) effect).1.value 4 = 0
    ∧ (hid_lg3ff_play host (hid_lg3ff_set_autocenter host dev m) effect).1.value 33 = 0
    ∧ (hid_lg3ff_play host (hid_lg3ff_set_autocenter host dev m) effect).1.value 34 = 0
    ∧ (hid_lg3ff_set_autocenter host (hid_lg3ff_play host dev effect).1 m).buffer
        = (hid_lg3ff_set_autocenter host dev m).buffer := by
  have hplay : ∀ d : hid_device, (hid_lg3ff_play host d effect).1.buffer
      = (({ hid_lg3ff_report.zero with
          x := { hid_lg3ff_report.zero.x with
            constant_force :=
              lg3ff_cpu_to_sle16 host (s16_of_int (-effect.u.ramp.start_level * 256)) },
          y := { hid_lg3ff_report.zero.y with
            constant_force :=
              lg3ff_cpu_to_sle16 host (s16_of_int (-effect.u.ramp.end_level * 256)) }
        } : hid_lg3ff_report).bytes host).map Int.ofNat := by
    intro d
    rw [play_eq, play_report_constant host effect htype]
    simp only [send_buffer]
  have hzero : ∀ (d : hid_device) (i : Nat), i < 63 → i ≠ 0 → i ≠ 1 → i ≠ 30 → i ≠ 31 →
      (hid_lg3ff_play host d effect).1.value i = 0 := by
    intro d i hi h0 h1 h30 h31
    rw [play_eq, play_report_constant host effect htype]
    simp only [send_value, if_pos hi]
    rw [constant_report_bytes, List.getD_eq_getElem?_getD,
      constant_bytes_zero _ _ _ _ i hi h0 h1 h30 h31]
    rfl
  refine ⟨⟨_, play_report_constant host effect htype, hplay dev⟩, ?_, ?_, ?_,
    hzero _ 3 (by decide) (by decide) (by decide) (by decide) (by decide),
    hzero _ 4 (by decide) (by decide) (by decide) (by decide) (by decide),
    hzero _ 33 (by decide) (by decide) (by decide) (by decide) (by decide),
    hzero _ 34 (by decide) (by decide) (by decide) (by decide) (by decide), ?_⟩
  · rw [hplay other, hplay dev]
  · rw [hplay _, hplay dev]
  · rw [hplay _, hplay dev]
  · rw [set_autocenter_eq, set_autocenter_eq, send_buffer, send_buffer]

/-- The theorem for C9 from a buffer full of sevens, with the effect of levels
100 and -50 and magnitude 65535: play after autocenter leaves value 3 at 0,
and the buffer that play alone leaves. -/
theorem dispatch_overwrites_buffer_witness :
    (hid_lg3ff_play .little_endian
        (hid_lg3ff_set_autocenter .little_endian
          { input := { ffbit := fun _ => false, ff := none }, report_count := 63,
            value := fun _ => 7, requests := [] } 65535)
        { type := FF_CONSTANT, u := { ramp := { start_level := 100, end_level := -50 } } }
      ).1.value 3 = 0
    ∧ (hid_lg3ff_play .little_endian
        (hid_lg3ff_set_autocenter .little_endian
          { input := { ffbit := fun _ => false, ff := none }, report_count := 63,
            value := fun _ => 7, requests := [] } 65535)
        { type := FF_CONSTANT, u := { ramp := { start_level := 100, end_level := -50 } } }
      ).1.buffer
      = (hid_lg3ff_play .little_endian
          { input := { ffbit := fun _ => false, ff := none }, report_count := 63,
            value := fun _ => 7, requests := [] }
          { type := FF_CONSTANT, u := { ramp := { start_level := 100, end_level := -50 } } }
        ).1.buffer :=
  have h := dispatch_overwrites_buffer .little_endian
    { input := { ffbit := fun _ => false, ff := none }, report_count := 63,
      value := fun _ => 7, requests := [] }
    { input := { ffbit := fun _ => false, ff := none }, report_count := 63,
      value := fun _ => 0, requests := [] }
    { type := FF_CONSTANT, u := { ramp := { start_level := 100, end_level := -50 } } }
    65535 rfl
  ⟨h.2.2.2.2.1, h.2.2.2.1⟩

/-! ## Start-up: rejected report -/

/-- C10: whenever the validation of output report 2, field 0 against 63 values
fails, `lg3ff_init` returns -ENODEV and the device is exactly as before: no
capability bit is set, no callback is registered (the force-feedback device
pointer is untouched and the memless helper is not consulted, whatever it
is), no request is issued and the buffer is unchanged. -/
theorem init_validation_failure
    (hid_validate_values : hid_device → Nat → Nat → Nat → Nat → Bool)
    (input_ff_create_memless : input_dev → ff_handler → input_dev × Int)
    (host : byte_order) (hid : hid_device)
    (hfail : hid_validate_values hid HID_OUTPUT_REPORT FF_REPORT_ID 0 63 = false) :
    lg3ff_init hid_validate_values input_ff_create_memless host hid = some (hid, -ENODEV)
    ∧ ∀ (after : hid_device) (status : Int),
        lg3ff_init hid_validate_values input_ff_create_memless host hid = some (after, status) →
          status = -ENODEV
          ∧ after.input.ffbit = hid.input.ffbit
          ∧ after.input.ff = hid.input.ff
          ∧ after.requests = hid.requests
          ∧ after.value = hid.value := by
  have h : lg3ff_init hid_validate_values input_ff_create_memless host hid
      = some (hid, -ENODEV) := by
    unfold lg3ff_init
    simp only [sizeof_hid_lg3ff_report_eq, hfail]
    rfl
  refine ⟨h, ?_⟩
  intro after status hres
  rw [h] at hres
  simp only [Option.some.injEq, Prod.mk.injEq] at hres
  obtain ⟨h1, h2⟩ := hres
  subst h1 h2
  exact ⟨rfl, rfl, rfl, rfl, rfl⟩

/-- The theorem for C10 with a validation helper that accepts exactly the
devices whose field has at least the requested number of values, a memless
helper that would succeed, and a device whose field has 10 values. -/
theorem init_validation_failure_witness :
    lg3ff_init (fun hid _ _ _ report_counts => decide (report_counts ≤ hid.report_count))
        (fun dev play => ({ dev with ff := some { play_effect := some play,
                                                  set_autocenter := none } }, 0))
        .little_endian
        { input := { ffbit := fun _ => false, ff := none }, report_count := 10,
          value := fun _ => 7, requests := [] }
      = some ({ input := { ffbit := fun _ => false, ff := none }, report_count := 10,
                value := fun _ => 7, requests := [] }, -ENODEV) :=
  (init_validation_failure
    (fun hid _ _ _ report_counts => decide (report_counts ≤ hid.report_count))
    (fun dev play => ({ dev with ff := some { play_effect := some play,
                                              set_autocenter := none } }, 0))
    .little_endian
    { input := { ffbit := fun _ => false, ff := none }, report_count := 10,
      value := fun _ => 7, requests := [] }
    (by decide)).1

/-! ## Start-up: accepted report -/

/-- The loop over `ff3_joystick_ac` sets FF_CONSTANT, then FF_AUTOCENTER, and
stops at the closing -1. -/
theorem set_ff_bits_joystick (ffbit : Nat → Bool) :
    set_ff_bits ff3_joystick_ac ffbit = set_bit FF_AUTOCENTER (set_bit FF_CONSTANT ffbit) := rfl

/-- What `lg3ff_init` does once the validation has passed, in terms of the
answer of the memless helper to the device with the two bits set. -/
theorem init_of_valid
    (hid_validate_values : hid_device → Nat → Nat → Nat → Nat → Bool)
    (input_ff_create_memless : input_dev → ff_handler → input_dev × Int)
    (host : byte_order) (hid : hid_device)
    (hval : hid_validate_values hid HID_OUTPUT_REPORT FF_REPORT_ID 0 63 = true) :
    lg3ff_init hid_validate_values input_ff_create_memless host hid
      = (if (input_ff_create_memless
              { hid.input with
                ffbit := set_bit FF_AUTOCENTER (set_bit FF_CONSTANT hid.input.ffbit) }
              ff_handler.hid_lg3ff_play).2 ≠ 0 then
          some ({ hid with
                  input := (input_ff_create_memless
                    { hid.input with
                      ffbit := set_bit FF_AUTOCENTER (set_bit FF_CONSTANT hid.input.ffbit) }
                    ff_handler.hid_lg3ff_play).1 },
                (input_ff_create_memless
                  { hid.input with
                    ffbit := set_bit FF_AUTOCENTER (set_bit FF_CONSTANT hid.input.ffbit) }
                  ff_handler.hid_lg3ff_play).2)
        else if (input_ff_create_memless
              { hid.input with
                ffbit := set_bit FF_AUTOCENTER (set_bit FF_CONSTANT hid.input.ffbit) }
              ff_handler.hid_lg3ff_play).1.ffbit FF_AUTOCENTER = true then
          match (input_ff_create_memless
              { hid.input with
                ffbit := set_bit FF_AUTOCENTER (set_bit FF_CONSTANT hid.input.ffbit) }
              ff_handler.hid_lg3ff_play).1.ff with
          | none => none
          | some ff =>
            some (hid_lg3ff_set_autocenter host
              { hid with
                input := { (input_ff_create_memless
                    { hid.input with
                      ffbit := set_bit FF_AUTOCENTER (set_bit FF_CONSTANT hid.input.ffbit) }
                    ff_handler.hid_lg3ff_play).1 with
                  ff := some { ff with
                    set_autocenter := some ff_handler.hid_lg3ff_set_autocenter } } } 0, 0)
        else
          some ({ hid with
                  input := (input_ff_create_memless
                    { hid.input with
                      ffbit := set_bit FF_AUTOCENTER (set_bit FF_CONSTANT hid.input.ffbit) }
                    ff_handler.hid_lg3ff_play).1 }, 0)) := by
  unfold lg3ff_init
  simp only [sizeof_hid_lg3ff_report_eq, hval, set_ff_bits_joystick, test_bit]
  rfl

/-- After an accepted report and a failing memless helper, `lg3ff_init`
returns the helper's status and the device as the helper left it. -/
theorem init_memless_error
    (hid_validate_values : hid_device → Nat → Nat → Nat → Nat → Bool)
    (input_ff_create_memless : input_dev → ff_handler → input_dev × Int)
    (host : byte_order) (hid : hid_device) (dev2 : input_dev) (error : Int)
    (hval : hid_validate_values hid HID_OUTPUT_REPORT FF_REPORT_ID 0 63 = true)
    (hmem : input_ff_create_memless
        { hid.input with
          ffbit := set_bit FF_AUTOCENTER (set_bit FF_CONSTANT hid.input.ffbit) }
        ff_handler.hid_lg3ff_play = (dev2, error))
    (herr : error ≠ 0) :
    lg3ff_init hid_validate_values input_ff_create_memless host hid
      = some ({ hid with input := dev2 }, error) := by
  rw [init_of_valid _ _ _ _ hval, hmem]
  simp only [herr, ne_eq, not_false_eq_true, if_true]

/-- After an accepted report and a succeeding memless helper that left a
force-feedback device and the FF_AUTOCENTER bit, `lg3ff_init` registers the
autocenter callback, dispatches the autocenter report of magnitude 0 and
returns 0. -/
theorem init_success
    (hid_validate_values : hid_device → Nat → Nat → Nat → Nat → Bool)
    (input_ff_create_memless : input_dev → ff_handler → input_dev × Int)
    (host : byte_order) (hid : hid_device) (dev2 : input_dev) (ff : ff_device)
    (hval : hid_validate_values hid HID_OUTPUT_REPORT FF_REPORT_ID 0 63 = true)
    (hmem : input_ff_create_memless
        { hid.input with
          ffbit := set_bit FF_AUTOCENTER (set_bit FF_CONSTANT hid.input.ffbit) }
        ff_handler.hid_lg3ff_play = (dev2, 0))
    (hbit : dev2.ffbit FF_AUTOCENTER = true) (hff : dev2.ff = some ff) :
    lg3ff_init hid_validate_values input_ff_create_memless host hid
      = some (hid_lg3ff_set_autocenter host
          { hid with
            input := { dev2 with
              ff := some { ff with
                set_autocenter := some ff_handler.hid_lg3ff_set_autocenter } } } 0, 0) := by
  rw [init_of_valid _ _ _ _ hval, hmem]
  simp only [ne_eq, not_true_eq_false, if_false, hbit, if_true, hff]

/-- After an accepted report and a succeeding memless helper that cleared the
FF_AUTOCENTER bit, `lg3ff_init` returns 0 without registering the autocenter
callback. -/
theorem init_success_no_autocenter
    (hid_validate_values : hid_device → Nat → Nat → Nat → Nat → Bool)
    (input_ff_create_memless : input_dev → ff_handler → input_dev × Int)
    (host : byte_order) (hid : hid_device) (dev2 : input_dev)
    (hval : hid_validate_values hid HID_OUTPUT_REPORT FF_REPORT_ID 0 63 = true)
    (hmem : input_ff_create_memless
        { hid.input with
          ffbit := set_bit FF_AUTOCENTER (set_bit FF_CONSTANT hid.input.ffbit) }
        ff_handler.hid_lg3ff_play = (dev2, 0))
    (hbit : dev2.ffbit FF_AUTOCENTER = false) :
    lg3ff_init hid_validate_values input_ff_create_memless host hid
      = some ({ hid with input := dev2 }, 0) := by
  rw [init_of_valid _ _ _ _ hval, hmem]
  simp [hbit]

/-- After an accepted report and a succeeding memless helper that left the
FF_AUTOCENTER bit but no force-feedback device, `lg3ff_init` has no result. -/
theorem init_success_null
    (hid_validate_values : hid_device → Nat → Nat → Nat → Nat → Bool)
    (input_ff_create_memless : input_dev → ff_handler → input_dev × Int)
    (host : byte_order) (hid : hid_device) (dev2 : input_dev)
    (hval : hid_validate_values hid HID_OUTPUT_REPORT FF_REPORT_ID 0 63 = true)
    (hmem : input_ff_create_memless
        { hid.input with
          ffbit := set_bit FF_AUTOCENTER (set_bit FF_CONSTANT hid.input.ffbit) }
        ff_handler.hid_lg3ff_play = (dev2, 0))
    (hbit : dev2.ffbit FF_AUTOCENTER = true) (hff : dev2.ff = none) :
    lg3ff_init hid_validate_values input_ff_create_memless host hid = none := by
  rw [init_of_valid _ _ _ _ hval, hmem]
  simp only [ne_eq, not_true_eq_false, if_false, hbit, if_true, hff]

theorem set_bit_self (nr : Nat) (addr : Nat → Bool) : set_bit nr addr nr = true := by
  simp [set_bit]

theorem set_bit_other (nr k : Nat) (addr : Nat → Bool) (h : k ≠ nr) :
    set_bit nr addr k = addr k := by
  simp [set_bit, h]

/-! ## Start-up: capability bits when it fails -/

/-- C11, as stated, fails: on a device with no capability bit set and an
accepted report, a memless helper that fails with -12 and leaves the device
alone makes `lg3ff_init` return -12, an error, with FF_CONSTANT and
FF_AUTOCENTER set in the bitmap afterwards. -/
theorem init_memless_failure_keeps_bits :
    ∃ after : hid_device,
      lg3ff_init (fun _ _ _ _ _ => true) (fun dev _ => (dev, -12)) .little_endian
          { input := { ffbit := fun _ => false, ff := none }, report_count := 63,
            value := fun _ => 0, requests := [] }
        = some (after, -12)
      ∧ (-12 : Int) ≠ 0
      ∧ after.input.ffbit FF_CONSTANT = true
      ∧ after.input.ffbit FF_AUTOCENTER = true
      ∧ ({ input := { ffbit := fun _ => false, ff := none }, report_count := 63,
           value := fun _ => 0, requests := [] } : hid_device).input.ffbit FF_CONSTANT = false
      ∧ ({ input := { ffbit := fun _ => false, ff := none }, report_count := 63,
           value := fun _ => 0, requests := [] } : hid_device).input.ffbit FF_AUTOCENTER
          = false :=
  ⟨_, rfl, by decide, rfl, rfl, rfl, rfl⟩

/-- C11, amended: for every invocation of `lg3ff_init` that returns an error,
no request is issued and the buffer is unchanged. When the error is that of
the report validation, the capability bits are exactly what they were. When
it is that of the memless step, the status is that step's and the input device
is as that step left it, after `lg3ff_init` had set FF_CONSTANT and
FF_AUTOCENTER in the bitmap handed to it; so whenever that step leaves the
bitmap alone, both bits are set afterwards and every other bit is what it
was. -/
theorem init_error_capability_bits
    (hid_validate_values : hid_device → Nat → Nat → Nat → Nat → Bool)
    (input_ff_create_memless : input_dev → ff_handler → input_dev × Int)
    (host : byte_order) (hid after : hid_device) (status : Int)
    (hres : lg3ff_init hid_validate_values input_ff_create_memless host hid
      = some (after, status))
    (herr : status ≠ 0) :
    after.requests = hid.requests ∧ after.value = hid.value
    ∧ (hid_validate_values hid HID_OUTPUT_REPORT FF_REPORT_ID 0 63 = false →
        status = -ENODEV ∧ after.input.ffbit = hid.input.ffbit)
    ∧ (hid_validate_values hid HID_OUTPUT_REPORT FF_REPORT_ID 0 63 = true →
        status = (input_ff_create_memless
            { hid.input with
              ffbit := set_bit FF_AUTOCENTER (set_bit FF_CONSTANT hid.input.ffbit) }
            ff_handler.hid_lg3ff_play).2
        ∧ after.input = (input_ff_create_memless
            { hid.input with
              ffbit := set_bit FF_AUTOCENTER (set_bit FF_CONSTANT hid.input.ffbit) }
            ff_handler.hid_lg3ff_play).1
        ∧ ((input_ff_create_memless
              { hid.input with
                ffbit := set_bit FF_AUTOCENTER (set_bit FF_CONSTANT hid.input.ffbit) }
              ff_handler.hid_lg3ff_play).1.ffbit
            = set_bit FF_AUTOCENTER (set_bit FF_CONSTANT hid.input.ffbit) →
          after.input.ffbit FF_CONSTANT = true
          ∧ after.input.ffbit FF_AUTOCENTER = true
          ∧ ∀ k : Nat, k ≠ FF_CONSTANT → k ≠ FF_AUTOCENTER →
              after.input.ffbit k = hid.input.ffbit k)) := by
  cases hval : hid_validate_values hid HID_OUTPUT_REPORT FF_REPORT_ID 0 63 with
  | false =>
    have h : lg3ff_init hid_validate_values input_ff_create_memless host hid
        = some (hid, -ENODEV) := by
      unfold lg3ff_init
      simp only [sizeof_hid_lg3ff_report_eq, hval]
      rfl
    rw [h] at hres
    simp only [Option.some.injEq, Prod.mk.injEq] at hres
    obtain ⟨h1, h2⟩ := hres
    subst h1 h2
    exact ⟨rfl, rfl, fun _ => ⟨rfl, rfl⟩, fun hc => by cases hc⟩
  | true =>
    rcases hmem : input_ff_create_memless
        { hid.input with
          ffbit := set_bit FF_AUTOCENTER (set_bit FF_CONSTANT hid.input.ffbit) }
        ff_handler.hid_lg3ff_play with ⟨dev2, error⟩
    by_cases he : error = 0
    · subst he
      exfalso
      cases hbit : dev2.ffbit FF_AUTOCENTER with
      | false =>
        rw [init_success_no_autocenter _ _ host hid dev2 hval hmem hbit] at hres
        simp only [Option.some.injEq, Prod.mk.injEq] at hres
        exact herr hres.2.symm
      | true =>
        cases hff : dev2.ff with
        | none =>
          rw [init_success_null _ _ host hid dev2 hval hmem hbit hff] at hres
          cases hres
        | some ff =>
          rw [init_success _ _ host hid dev2 ff hval hmem hbit hff] at hres
          simp only [Option.some.injEq, Prod.mk.injEq] at hres
          exact herr hres.2.symm
    · rw [init_memless_error _ _ host hid dev2 error hval hmem he] at hres
      simp only [Option.some.injEq, Prod.mk.injEq] at hres
      obtain ⟨h1, h2⟩ := hres
      subst h1 h2
      refine ⟨rfl, rfl, fun hc => (by cases hc), fun _ => ⟨rfl, rfl, ?_⟩⟩
      intro hkeep
      simp only at hkeep
      simp only [hkeep]
      refine ⟨?_, set_bit_self _ _, ?_⟩
      · rw [set_bit_other _ _ _ (by decide), set_bit_self]
      · intro k h1 h2
        rw [set_bit_other _ _ _ h2, set_bit_other _ _ _ h1]

/-- The amended C11 at the device and helpers of the failing case above: the
start-up returns the memless helper's -12, no request has been issued, both
bits are set afterwards and bit 0 is still clear. -/
theorem init_error_capability_bits_witness :
    ∃ after : hid_device,
      lg3ff_init (fun _ _ _ _ _ => true) (fun dev _ => (dev, -12)) .little_endian
          { input := { ffbit := fun _ => false, ff := none }, report_count := 63,
            value := fun _ => 0, requests := [] }
        = some (after, -12)
      ∧ after.requests = []
      ∧ after.input.ffbit FF_CONSTANT = true
      ∧ after.input.ffbit FF_AUTOCENTER = true
      ∧ after.input.ffbit 0 = false :=
  have h := init_error_capability_bits (fun _ _ _ _ _ => true) (fun dev _ => (dev, -12))
    .little_endian
    { input := { ffbit := fun _ => false, ff := none }, report_count := 63,
      value := fun _ => 0, requests := [] }
    { input := { ffbit := set_bit FF_AUTOCENTER (set_bit FF_CONSTANT (fun _ => false)),
                 ff := none },
      report_count := 63, value := fun _ => 0, requests := [] }
    (-12) rfl (by decide)
  ⟨_, rfl, h.1, ((h.2.2.2 rfl).2.2 rfl).1, ((h.2.2.2 rfl).2.2 rfl).2.1,
    ((h.2.2.2 rfl).2.2 rfl).2.2 0 (by decide) (by decide)⟩

/-! ## Start-up: size of the report -/

/-- C12: with the validation as the spec describes it, `lg3ff_init` returns
-ENODEV, leaving the device as it was, for every device whose output report 2,
field 0 has a number of values other than 63, be it smaller or larger, and
whatever the memless helper is; so a status of 0 is only possible when the
number is exactly 63. -/
theorem init_rejects_other_sizes
    (input_ff_create_memless : input_dev → ff_handler → input_dev × Int)
    (host : byte_order) (hid : hid_device) :
    (hid.report_count ≠ 63 →
        lg3ff_init hid_validate_values input_ff_create_memless host hid
          = some (hid, -ENODEV))
    ∧ (-ENODEV ≠ 0)
    ∧ (∀ after : hid_device,
        lg3ff_init hid_validate_values input_ff_create_memless host hid = some (after, 0) →
          hid.report_count = 63) := by
  have hrej : hid.report_count ≠ 63 →
      lg3ff_init hid_validate_values input_ff_create_memless host hid
        = some (hid, -ENODEV) := by
    intro hne
    have hfail : hid_validate_values hid HID_OUTPUT_REPORT FF_REPORT_ID 0 63 = false := by
      simp [hid_validate_values, hne]
    unfold lg3ff_init
    simp only [sizeof_hid_lg3ff_report_eq, hfail]
    rfl
  refine ⟨hrej, by decide, ?_⟩
  intro after hres
  by_contra hne
  rw [hrej hne] at hres
  simp only [Option.some.injEq, Prod.mk.injEq] at hres
  exact absurd hres.2 (by decide)

/-- The theorem for C12 at devices with 62 and with 64 values, the memless
helper being one that would succeed: both are turned down with -ENODEV. -/
theorem init_rejects_other_sizes_witness :
    lg3ff_init hid_validate_values
        (fun dev play => ({ dev with ff := some { play_effect := some play,
                                                  set_autocenter := none } }, 0))
        .little_endian
        { input := { ffbit := fun _ => false, ff := none }, report_count := 62,
          value := fun _ => 0, requests := [] }
      = some ({ input := { ffbit := fun _ => false, ff := none }, report_count := 62,
                value := fun _ => 0, requests := [] }, -ENODEV)
    ∧ lg3ff_init hid_validate_values
        (fun dev play => ({ dev with ff := some { play_effect := some play,
                                                  set_autocenter := none } }, 0))
        .little_endian
        { input := { ffbit := fun _ => false, ff := none }, report_count := 64,
          value := fun _ => 0, requests := [] }
      = some ({ input := { ffbit := fun _ => false, ff := none }, report_count := 64,
                value := fun _ => 0, requests := [] }, -ENODEV) :=
  ⟨(init_rejects_other_sizes
      (fun dev play => ({ dev with ff := some { play_effect := some play,
                                                set_autocenter := none } }, 0))
      .little_endian
      { input := { ffbit := fun _ => false, ff := none }, report_count := 62,
        value := fun _ => 0, requests := [] }).1 (by decide),
   (init_rejects_other_sizes
      (fun dev play => ({ dev with ff := some { play_effect := some play,
                                                set_autocenter := none } }, 0))
      .little_endian
      { input := { ffbit := fun _ => false, ff := none }, report_count := 64,
        value := fun _ => 0, requests := [] }).1 (by decide)⟩

/-! ## Start-up: what a successful one registers -/

/-- C13, as stated, fails: on a device with no capability bit set and an
accepted report, a memless helper that succeeds, stores the callback it is
given and sets bit 0x60 on its own account (as a helper that emulates gain
would) makes `lg3ff_init` return 0 with bit 0x60 set afterwards, a bit that is
neither FF_CONSTANT nor FF_AUTOCENTER and was not set before. -/
theorem init_success_extra_bit :
    ∃ after : hid_device,
      lg3ff_init (fun _ _ _ _ _ => true)
          (fun dev play => ({ ffbit := set_bit 0x60 dev.ffbit,
                              ff := some { play_effect := some play,
                                           set_autocenter := none } }, 0))
          .little_endian
          { input := { ffbit := fun _ => false, ff := none }, report_count := 63,
            value := fun _ => 0, requests := [] }
        = some (after, 0)
      ∧ after.input.ffbit 0x60 = true
      ∧ ({ input := { ffbit := fun _ => false, ff := none }, report_count := 63,
           value := fun _ => 0, requests := [] } : hid_device).input.ffbit 0x60 = false
      ∧ (0x60 : Nat) ≠ FF_CONSTANT ∧ (0x60 : Nat) ≠ FF_AUTOCENTER
      ∧ after.input.ffbit FF_CONSTANT = true
      ∧ after.input.ffbit FF_AUTOCENTER = true :=
  ⟨_, rfl, rfl, rfl, by decide, by decide, rfl, rfl⟩

/-- C13, amended: whenever the report validation passes and the memless step,
called with the device and `hid_lg3ff_play`, returns 0 having left a
force-feedback device and the FF_AUTOCENTER bit, `lg3ff_init` returns 0. The
bitmap it hands to that step is the previous one plus exactly FF_CONSTANT and
FF_AUTOCENTER, and the bitmap afterwards is the one that step left: the
previous bits plus exactly those two whenever the step leaves the bitmap
alone. The play callback handed to the step is `hid_lg3ff_play`, so that is
the play callback afterwards for every step that stores the callback it is
given, and the autocenter callback afterwards is
`hid_lg3ff_set_autocenter`. -/
theorem init_success_registers
    (hid_validate_values : hid_device → Nat → Nat → Nat → Nat → Bool)
    (input_ff_create_memless : input_dev → ff_handler → input_dev × Int)
    (host : byte_order) (hid : hid_device) (ff : ff_device)
    (hval : hid_validate_values hid HID_OUTPUT_REPORT FF_REPORT_ID 0 63 = true)
    (hsucc : (input_ff_create_memless
        { hid.input with
          ffbit := set_bit FF_AUTOCENTER (set_bit FF_CONSTANT hid.input.ffbit) }
        ff_handler.hid_lg3ff_play).2 = 0)
    (hff : (input_ff_create_memless
        { hid.input with
          ffbit := set_bit FF_AUTOCENTER (set_bit FF_CONSTANT hid.input.ffbit) }
        ff_handler.hid_lg3ff_play).1.ff = some ff)
    (hbit : (input_ff_create_memless
        { hid.input with
          ffbit := set_bit FF_AUTOCENTER (set_bit FF_CONSTANT hid.input.ffbit) }
        ff_handler.hid_lg3ff_play).1.ffbit FF_AUTOCENTER = true) :
    ∃ after : hid_device,
      lg3ff_init hid_validate_values input_ff_create_memless host hid = some (after, 0)
      ∧ (∀ k : Nat,
          set_bit FF_AUTOCENTER (set_bit FF_CONSTANT hid.input.ffbit) k = true
            ↔ (hid.input.ffbit k = true ∨ k = FF_CONSTANT ∨ k = FF_AUTOCENTER))
      ∧ after.input.ffbit
          = (input_ff_create_memless
              { hid.input with
                ffbit := set_bit FF_AUTOCENTER (set_bit FF_CONSTANT hid.input.ffbit) }
              ff_handler.hid_lg3ff_play).1.ffbit
      ∧ ((input_ff_create_memless
              { hid.input with
                ffbit := set_bit FF_AUTOCENTER (set_bit FF_CONSTANT hid.input.ffbit) }
              ff_handler.hid_lg3ff_play).1.ffbit
            = set_bit FF_AUTOCENTER (set_bit FF_CONSTANT hid.input.ffbit) →
          ∀ k : Nat, after.input.ffbit k = true
            ↔ (hid.input.ffbit k = true ∨ k = FF_CONSTANT ∨ k = FF_AUTOCENTER))
      ∧ after.input.ff
          = some { ff with set_autocenter := some ff_handler.hid_lg3ff_set_autocenter }
      ∧ ((∀ (dev : input_dev) (play : ff_handler) (made : ff_device),
            (input_ff_create_memless dev play).1.ff = some made →
              made.play_effect = some play) →
          ∃ made : ff_device, after.input.ff = some made
            ∧ made.play_effect = some ff_handler.hid_lg3ff_play
            ∧ made.set_autocenter = some ff_handler.hid_lg3ff_set_autocenter) := by
  have hiff : ∀ k : Nat,
      set_bit FF_AUTOCENTER (set_bit FF_CONSTANT hid.input.ffbit) k = true
        ↔ (hid.input.ffbit k = true ∨ k = FF_CONSTANT ∨ k = FF_AUTOCENTER) := by
    intro k
    simp only [set_bit]
    by_cases h1 : k = FF_AUTOCENTER
    · simp [h1]
    · by_cases h2 : k = FF_CONSTANT
      · simp [h2]
      · simp [h1, h2]
  have hstore := fun (h : ∀ (dev : input_dev) (play : ff_handler) (made : ff_device),
      (input_ff_create_memless dev play).1.ff = some made → made.play_effect = some play) =>
    h _ _ ff hff
  rcases hmem : input_ff_create_memless
      { hid.input with
        ffbit := set_bit FF_AUTOCENTER (set_bit FF_CONSTANT hid.input.ffbit) }
      ff_handler.hid_lg3ff_play with ⟨dev2, error⟩
  rw [hmem] at hsucc hff hbit
  simp only at hsucc hff hbit
  subst hsucc
  refine ⟨_, init_success _ _ host hid dev2 ff hval hmem hbit hff, hiff, ?_, ?_, ?_, ?_⟩
  · rw [set_autocenter_eq, send_input]
  · intro hkeep k
    rw [set_autocenter_eq, send_input]
    simp only at hkeep
    simp only [hkeep]
    exact hiff k
  · rw [set_autocenter_eq, send_input]
  · intro h
    refine ⟨{ ff with set_autocenter := some ff_handler.hid_lg3ff_set_autocenter }, ?_,
      hstore h, rfl⟩
    rw [set_autocenter_eq, send_input]

/-- The amended C13 on a little-endian host at the helpers and device of the
failing case above: the start-up returns 0, the two callbacks are those of the
driver, and the bitmap afterwards is the one the helper left, bit 0x60
included. -/
theorem init_success_registers_witness :
    ∃ after : hid_device,
      lg3ff_init (fun _ _ _ _ _ => true)
          (fun dev play => ({ ffbit := set_bit 0x60 dev.ffbit,
                              ff := some { play_effect := some play,
                                           set_autocenter := none } }, 0))
          .little_endian
          { input := { ffbit := fun _ => false, ff := none }, report_count := 63,
            value := fun _ => 0, requests := [] }
        = some (after, 0)
      ∧ after.input.ffbit
          = set_bit 0x60 (set_bit FF_AUTOCENTER (set_bit FF_CONSTANT (fun _ => false)))
      ∧ ∃ made : ff_device, after.input.ff = some made
          ∧ made.play_effect = some ff_handler.hid_lg3ff_play
          ∧ made.set_autocenter = some ff_handler.hid_lg3ff_set_autocenter := by
  obtain ⟨after, h1, _, h3, _, _, h6⟩ := init_success_registers (fun _ _ _ _ _ => true)
    (fun dev play => ({ ffbit := set_bit 0x60 dev.ffbit,
                        ff := some { play_effect := some play,
                                     set_autocenter := none } }, 0))
    .little_endian
    { input := { ffbit := fun _ => false, ff := none }, report_count := 63,
      value := fun _ => 0, requests := [] }
    { play_effect := some ff_handler.hid_lg3ff_play, set_autocenter := none }
    rfl rfl rfl rfl
  refine ⟨after, h1, h3, h6 ?_⟩
  intro dev play made hmade
  simp only [Option.some.injEq] at hmade
  rw [← hmade]

/-! ## The dispatch routine -/

theorem s16_bytes_lt (host : byte_order) (v : Int) : ∀ b ∈ s16_bytes host v, b < 256 := by
  have hlt := u16_of_s16_lt v
  intro b hb
  cases host <;>
    simp only [s16_bytes, List.mem_cons, List.mem_singleton, List.not_mem_nil, or_false] at hb <;>
    rcases hb with h | h <;> omega

theorem s8_bytes_lt (v : Int) : ∀ b ∈ s8_bytes v, b < 256 := by
  intro b hb
  simp only [s8_bytes, List.mem_singleton, u8_of_s8] at hb
  omega

theorem u8_bytes_lt (v : Nat) : ∀ b ∈ u8_bytes v, b < 256 := by
  intro b hb
  simp only [u8_bytes, List.mem_singleton] at hb
  omega

theorem u8_array_bytes_lt {n : Nat} (a : Fin n → Nat) : ∀ b ∈ u8_array_bytes a, b < 256 := by
  intro b hb
  simp only [u8_array_bytes, List.mem_ofFn, Set.mem_range] at hb
  obtain ⟨i, hi⟩ := hb
  omega

theorem axis_bytes_lt (host : byte_order) (a : hid_lg3ff_axis) :
    ∀ b ∈ a.bytes host, b < 256 := by
  simp only [hid_lg3ff_axis.bytes, List.forall_mem_append]
  refine ⟨⟨⟨⟨⟨⟨⟨⟨⟨⟨⟨⟨⟨⟨?_, ?_⟩, ?_⟩, ?_⟩, ?_⟩, ?_⟩, ?_⟩, ?_⟩, ?_⟩, ?_⟩, ?_⟩, ?_⟩, ?_⟩, ?_⟩, ?_⟩
  all_goals first
    | exact s16_bytes_lt _ _
    | exact s8_bytes_lt _
    | exact u8_bytes_lt _
    | exact u8_array_bytes_lt _

/-- Every byte of the memory image of a report is a value from 0 to 255. -/
theorem report_bytes_lt (host : byte_order) (r : hid_lg3ff_report) :
    ∀ b ∈ r.bytes host, b < 256 := by
  simp only [hid_lg3ff_report.bytes, List.forall_mem_append]
  exact ⟨⟨axis_bytes_lt host _, axis_bytes_lt host _⟩, u8_array_bytes_lt _⟩

theorem send_requests (host : byte_order) (hid : hid_device) (r : hid_lg3ff_report) :
    (hig_lg3ff_send host hid r).requests
      = hid.requests ++
        [{ report_id := FF_REPORT_ID, reqtype := HID_REQ_SET_REPORT,
           data := (List.range hid.report_count).map (hig_lg3ff_send host hid r).value }] :=
  rfl

/-- C14: for every report r (63 bytes), `hig_lg3ff_send` stores byte i of r,
a value from 0 to 255, into value i of field 0 of output report 2 for every i
from 0 to 62, in the same order, leaves every other value alone, and then
issues exactly one request, a SET_REPORT for report 2 that sees the values
just stored. It reads nothing back (the first 63 values afterwards do not
depend on the device it started from), touches nothing else and returns
nothing but the device. -/
theorem send_stores_then_requests (host : byte_order) (hid : hid_device)
    (r : hid_lg3ff_report) :
    (r.bytes host).length = 63
    ∧ (∀ i : Nat, i < 63 →
        ∃ b : Nat, (r.bytes host)[i]? = some b ∧ b < 256
          ∧ (hig_lg3ff_send host hid r).value i = (b : Int))
    ∧ (hig_lg3ff_send host hid r).buffer = (r.bytes host).map Int.ofNat
    ∧ (∀ i : Nat, 63 ≤ i → (hig_lg3ff_send host hid r).value i = hid.value i)
    ∧ (hig_lg3ff_send host hid r).requests
        = hid.requests ++
          [{ report_id := 2, reqtype := HID_REQ_SET_REPORT,
             data := (List.range hid.report_count).map (hig_lg3ff_send host hid r).value }]
    ∧ (hig_lg3ff_send host hid r).requests.length = hid.requests.length + 1
    ∧ (hig_lg3ff_send host hid r).input = hid.input
    ∧ (hig_lg3ff_send host hid r).report_count = hid.report_count
    ∧ (∀ other : hid_device,
        (hig_lg3ff_send host other r).buffer = (hig_lg3ff_send host hid r).buffer) := by
  refine ⟨report_bytes_length host r, ?_, send_buffer host hid r, ?_, send_requests host hid r,
    ?_, rfl, rfl, ?_⟩
  · intro i hi
    have hlen : i < (r.bytes host).length := by rw [report_bytes_length]; exact hi
    refine ⟨(r.bytes host)[i], List.getElem?_eq_getElem hlen, ?_, ?_⟩
    · exact report_bytes_lt host r _ (List.getElem_mem hlen)
    · rw [send_value, if_pos hi, List.getD_eq_getElem _ _ hlen]
  · intro i hi
    rw [send_value, if_neg (by omega)]
  · rw [send_requests, List.length_append]
    rfl
  · intro other
    rw [send_buffer, send_buffer]

/-- The theorem for C14 with the autocenter report of magnitude 1024 sent to a
device whose 63 values were all 7 and that had issued no request: value 3
becomes 127, and one request has been issued. -/
theorem send_stores_then_requests_witness :
    (∃ b : Nat, ((hid_lg3ff_set_autocenter_report 1024).bytes .little_endian)[3]? = some b
      ∧ b < 256
      ∧ (hig_lg3ff_send .little_endian
          { input := { ffbit := fun _ => false, ff := none }, report_count := 63,
            value := fun _ => 7, requests := [] }
          (hid_lg3ff_set_autocenter_report 1024)).value 3 = (b : Int))
    ∧ (hig_lg3ff_send .little_endian
          { input := { ffbit := fun _ => false, ff := none }, report_count := 63,
            value := fun _ => 7, requests := [] }
          (hid_lg3ff_set_autocenter_report 1024)).requests.length = 1 :=
  have h := send_stores_then_requests .little_endian
    { input := { ffbit := fun _ => false, ff := none }, report_count := 63,
      value := fun _ => 7, requests := [] }
    (hid_lg3ff_set_autocenter_report 1024)
  ⟨h.2.1 3 (by decide), h.2.2.2.2.2.1⟩

/-! ## Constant force over the clamped range -/

/-- For a constant-force effect whose start level lies between -127 and 127,
x.constant_force stands for exactly -start_level * 256, on either host: the
sign is inverted and nothing wraps. -/
theorem constant_force_exact_in_range (host : byte_order) (effect : ff_effect)
    (htype : effect.type = FF_CONSTANT)
    (hlo : -127 ≤ effect.u.ramp.start_level) (hhi : effect.u.ramp.start_level ≤ 127) :
    ∃ report : hid_lg3ff_report,
      hid_lg3ff_play_report host effect = some report
      ∧ lg3ff_sle16_to_cpu host report.x.constant_force = -effect.u.ramp.start_level * 256 := by
  refine ⟨_, play_report_constant host effect htype, ?_⟩
  simp only [sle16_to_cpu_cpu_to_sle16, s16_of_int_idem]
  unfold s16_of_int
  simp only
  split <;> omega

/-- C16 at level -128, the lower end of the clamped range: the int value
-(-128) << 8 is 32768, which the conversion to s16 turns into -32768, so
x.constant_force and y.constant_force stand for -32768 on either host (wire
bytes 0x00 0x80), a value that is not -L * 256 = 32768 and has the sign of L
itself. -/
theorem play_level_minus_128_wraps :
    ∃ report : hid_lg3ff_report,
      hid_lg3ff_play_report .little_endian
          { type := FF_CONSTANT, u := { ramp := { start_level := -128, end_level := -128 } } }
        = some report
      ∧ int_shl (int_neg (-128)) 8 = 32768
      ∧ report.x.constant_force = -32768
      ∧ report.y.constant_force = -32768
      ∧ lg3ff_sle16_to_cpu .little_endian report.x.constant_force = -32768
      ∧ lg3ff_sle16_to_cpu .little_endian report.x.constant_force ≠ -(-128) * 256
      ∧ lg3ff_sle16_to_cpu .little_endian report.x.constant_force < 0
      ∧ (report.bytes .little_endian).take 2 = [0x00, 0x80]
      ∧ ((report.bytes .little_endian).drop 30).take 2 = [0x00, 0x80]
      ∧ (∃ other : hid_lg3ff_report,
          hid_lg3ff_play_report .big_endian
              { type := FF_CONSTANT,
                u := { ramp := { start_level := -128, end_level := -128 } } }
            = some other
          ∧ lg3ff_sle16_to_cpu .big_endian other.x.constant_force = -32768
          ∧ (other.bytes .big_endian).take 2 = [0x00, 0x80]) := by
  refine ⟨_, play_report_constant .little_endian _ rfl, by decide, by decide, by decide,
    by decide, by decide, by decide, ?_, ?_, _, play_report_constant .big_endian _ rfl,
    by decide, ?_⟩
  · rw [constant_report_bytes]; decide
  · rw [constant_report_bytes]; decide
  · rw [constant_report_bytes]; decide

/-! ## Only the low 8 bits of a level count -/

theorem s16_low_bits (s t : Int) (h : s % 256 = t % 256) :
    s16_of_int (-s * 256) = s16_of_int (-t * 256) := by
  unfold s16_of_int
  simp only
  have h2 : (-s * 256) % 65536 = (-t * 256) % 65536 := by omega
  rw [h2]

theorem u16_high_byte (s : Int) :
    u16_of_s16 (s16_of_int (-s * 256)) % 256 = 0
    ∧ u16_of_s16 (s16_of_int (-s * 256)) / 256 = ((-s) % 256).toNat := by
  rw [u16_of_s16_s16_of_int]
  constructor <;> omega

/-- C17: for every constant-force effect, on either host, the bytes of the
report at offsets 0 and 30 are 0 and those at offsets 1 and 31 are
(-start_level) mod 256 and (-end_level) mod 256, every other byte being 0; so
two constant-force effects whose start levels agree modulo 256 and whose end
levels agree modulo 256 give the same report, byte for byte, and leave the
same 63 values in the transport buffer. -/
theorem constant_report_low_bits (host : byte_order) (dev : hid_device) (e1 e2 : ff_effect)
    (h1 : e1.type = FF_CONSTANT) (h2 : e2.type = FF_CONSTANT)
    (hs : e1.u.ramp.start_level % 256 = e2.u.ramp.start_level % 256)
    (he : e1.u.ramp.end_level % 256 = e2.u.ramp.end_level % 256) :
    (∃ report : hid_lg3ff_report,
        hid_lg3ff_play_report host e1 = some report
        ∧ report.bytes host
            = [0, ((-e1.u.ramp.start_level) % 256).toNat] ++ List.replicate 28 0
              ++ [0, ((-e1.u.ramp.end_level) % 256).toNat] ++ List.replicate 31 0)
    ∧ hid_lg3ff_play_report host e1 = hid_lg3ff_play_report host e2
    ∧ (hid_lg3ff_play host dev e1).1.buffer = (hid_lg3ff_play host dev e2).1.buffer := by
  have heq : hid_lg3ff_play_report host e1 = hid_lg3ff_play_report host e2 := by
    rw [play_report_constant host e1 h1, play_report_constant host e2 h2,
      s16_low_bits _ _ hs, s16_low_bits _ _ he]
  refine ⟨⟨_, play_report_constant host e1 h1, ?_⟩, heq, ?_⟩
  · rw [constant_report_bytes, (u16_high_byte _).1, (u16_high_byte _).2,
      (u16_high_byte _).1, (u16_high_byte _).2]
  · rw [play_eq, play_eq, heq]

/-- The theorem for C17 at the effects with levels (100, -50) and (356, 206),
which agree modulo 256: the report has bytes 0x00 0x9C at offsets 0-1 and the
two effects give the same report. -/
theorem constant_report_low_bits_witness :
    (∃ report : hid_lg3ff_report,
        hid_lg3ff_play_report .big_endian
            { type := FF_CONSTANT, u := { ramp := { start_level := 100, end_level := -50 } } }
          = some report
        ∧ report.bytes .big_endian
            = [0, ((-(100 : Int)) % 256).toNat] ++ List.replicate 28 0
              ++ [0, ((-(-50 : Int)) % 256).toNat] ++ List.replicate 31 0)
    ∧ hid_lg3ff_play_report .big_endian
          { type := FF_CONSTANT, u := { ramp := { start_level := 100, end_level := -50 } } }
        = hid_lg3ff_play_report .big_endian
          { type := FF_CONSTANT, u := { ramp := { start_level := 356, end_level := 206 } } } :=
  have h := constant_report_low_bits .big_endian
    { input := { ffbit := fun _ => false, ff := none }, report_count := 63,
      value := fun _ => 0, requests := [] }
    { type := FF_CONSTANT, u := { ramp := { start_level := 100, end_level := -50 } } }
    { type := FF_CONSTANT, u := { ramp := { start_level := 356, end_level := 206 } } }
    rfl rfl (by decide) (by decide)
  ⟨h.1, h.2.1⟩

/-! ## Start-up: the report it dispatches -/

/-- The 63 values the autocenter report of magnitude 0 leaves in the buffer. -/
theorem set_autocenter_zero_buffer (host : byte_order) (dev : hid_device) :
    (hid_lg3ff_set_autocenter host dev 0).buffer
      = List.replicate 3 0 ++ [127] ++ List.replicate 29 0 ++ [127] ++ List.replicate 29 0 := by
  rw [set_autocenter_eq, send_buffer, set_autocenter_report_eq, autocenter_report_bytes]
  decide

/-- The values an autocenter call leaves at the offsets other than 3, 4, 33
and 34 are 0. -/
theorem set_autocenter_value_zero (host : byte_order) (dev : hid_device) (m : Nat)
    (i : Nat) (hi : i < 63) (h3 : i ≠ 3) (h4 : i ≠ 4) (h33 : i ≠ 33) (h34 : i ≠ 34) :
    (hid_lg3ff_set_autocenter host dev m).value i = 0 := by
  rw [set_autocenter_eq]
  simp only [send_value, if_pos hi]
  rw [set_autocenter_report_eq, autocenter_report_bytes, List.getD_eq_getElem?_getD,
    autocenter_bytes_zero _ i hi h3 h4 h33 h34]
  rfl

/-- C18: with a memless helper that never clears the FF_AUTOCENTER bit, every
`lg3ff_init` that returns 0 has issued exactly one request, a SET_REPORT for
report 2, and left in the buffer the autocenter report of magnitude 0: value
127 at offsets 3 and 33 and 0 at every other of the first 63 offsets (the
guard of line 156 holds, the bit having been set at line 150); and every
`lg3ff_init` that returns an error has issued no request and left the buffer
alone, whatever the helpers are. -/
theorem init_dispatches_autocenter_zero
    (hid_validate_values : hid_device → Nat → Nat → Nat → Nat → Bool)
    (input_ff_create_memless : input_dev → ff_handler → input_dev × Int)
    (host : byte_order) (hid after : hid_device) (status : Int)
    (hres : lg3ff_init hid_validate_values input_ff_create_memless host hid
      = some (after, status)) :
    ((∀ (dev : input_dev) (play : ff_handler), dev.ffbit FF_AUTOCENTER = true →
          (input_ff_create_memless dev play).1.ffbit FF_AUTOCENTER = true) →
      status = 0 →
        after.requests
          = hid.requests ++
            [{ report_id := 2, reqtype := HID_REQ_SET_REPORT,
               data := (List.range hid.report_count).map after.value }]
        ∧ after.requests.length = hid.requests.length + 1
        ∧ after.buffer
            = ((hid_lg3ff_set_autocenter_report 0).bytes host).map Int.ofNat
        ∧ after.buffer
            = List.replicate 3 0 ++ [127] ++ List.replicate 29 0 ++ [127]
              ++ List.replicate 29 0
        ∧ after.value 3 = 127 ∧ after.value 33 = 127
        ∧ (∀ i : Nat, i < 63 → i ≠ 3 → i ≠ 4 → i ≠ 33 → i ≠ 34 → after.value i = 0)
        ∧ after.value 4 = 0 ∧ after.value 34 = 0)
    ∧ (status ≠ 0 → after.requests = hid.requests ∧ after.value = hid.value) := by
  cases hval : hid_validate_values hid HID_OUTPUT_REPORT FF_REPORT_ID 0 63 with
  | false =>
    have h : lg3ff_init hid_validate_values input_ff_create_memless host hid
        = some (hid, -ENODEV) := by
      unfold lg3ff_init
      simp only [sizeof_hid_lg3ff_report_eq, hval]
      rfl
    rw [h] at hres
    simp only [Option.some.injEq, Prod.mk.injEq] at hres
    obtain ⟨h1, h2⟩ := hres
    subst h1 h2
    exact ⟨fun _ h0 => absurd h0 (by decide), fun _ => ⟨rfl, rfl⟩⟩
  | true =>
    rcases hmem : input_ff_create_memless
        { hid.input with
          ffbit := set_bit FF_AUTOCENTER (set_bit FF_CONSTANT hid.input.ffbit) }
        ff_handler.hid_lg3ff_play with ⟨dev2, error⟩
    by_cases he : error = 0
    · subst he
      constructor
      · intro hkeep _
        have hbit : dev2.ffbit FF_AUTOCENTER = true := by
          have := hkeep
            { hid.input with
              ffbit := set_bit FF_AUTOCENTER (set_bit FF_CONSTANT hid.input.ffbit) }
            ff_handler.hid_lg3ff_play
            (set_bit_self FF_AUTOCENTER (set_bit FF_CONSTANT hid.input.ffbit))
          rw [hmem] at this
          exact this
        cases hff : dev2.ff with
        | none =>
          rw [init_success_null _ _ host hid dev2 hval hmem hbit hff] at hres
          cases hres
        | some ff =>
          rw [init_success _ _ host hid dev2 ff hval hmem hbit hff] at hres
          simp only [Option.some.injEq, Prod.mk.injEq] at hres
          obtain ⟨h1, h2⟩ := hres
          subst h1
          refine ⟨rfl, ?_, ?_, set_autocenter_zero_buffer host _, ?_, ?_,
            set_autocenter_value_zero host _ 0, ?_, ?_⟩
          · rw [set_autocenter_eq, send_requests, List.length_append]
            rfl
          · rw [set_autocenter_eq, send_buffer]
          · rw [set_autocenter_eq, send_value, set_autocenter_report_eq,
              autocenter_report_bytes, if_pos (by decide)]
            decide
          · rw [set_autocenter_eq, send_value, set_autocenter_report_eq,
              autocenter_report_bytes, if_pos (by decide)]
            decide
          · rw [set_autocenter_eq, send_value, set_autocenter_report_eq,
              autocenter_report_bytes, if_pos (by decide)]
            decide
          · rw [set_autocenter_eq, send_value, set_autocenter_report_eq,
              autocenter_report_bytes, if_pos (by decide)]
            decide
      · intro hne
        exfalso
        cases hbit : dev2.ffbit FF_AUTOCENTER with
        | false =>
          rw [init_success_no_autocenter _ _ host hid dev2 hval hmem hbit] at hres
          simp only [Option.some.injEq, Prod.mk.injEq] at hres
          exact hne hres.2.symm
        | true =>
          cases hff : dev2.ff with
          | none =>
            rw [init_success_null _ _ host hid dev2 hval hmem hbit hff] at hres
            cases hres
          | some ff =>
            rw [init_success _ _ host hid dev2 ff hval hmem hbit hff] at hres
            simp only [Option.some.injEq, Prod.mk.injEq] at hres
            exact hne hres.2.symm
    · rw [init_memless_error _ _ host hid dev2 error hval hmem he] at hres
      simp only [Option.some.injEq, Prod.mk.injEq] at hres
      obtain ⟨h1, h2⟩ := hres
      subst h1 h2
      exact ⟨fun _ h0 => absurd h0 he, fun _ => ⟨rfl, rfl⟩⟩

/-- The theorem for C18 on a little-endian host, with a validation that
accepts, a memless helper that stores the callback and leaves the bitmap
alone, and a device whose values were all 7 and that had issued no request:
the start-up returns 0, one request has been issued, value 3 is 127 and value
0 is 0. -/
theorem init_dispatches_autocenter_zero_witness :
    ∃ after : hid_device,
      lg3ff_init (fun _ _ _ _ _ => true)
          (fun dev play => ({ dev with ff := some { play_effect := some play,
                                                    set_autocenter := none } }, 0))
          .little_endian
          { input := { ffbit := fun _ => false, ff := none }, report_count := 63,
            value := fun _ => 7, requests := [] }
        = some (after, 0)
      ∧ after.requests.length = 1
      ∧ after.value 3 = 127
      ∧ after.value 0 = 0 :=
  have h := (init_dispatches_autocenter_zero (fun _ _ _ _ _ => true)
    (fun dev play => ({ dev with ff := some { play_effect := some play,
                                              set_autocenter := none } }, 0))
    .little_endian
    { input := { ffbit := fun _ => false, ff := none }, report_count := 63,
      value := fun _ => 7, requests := [] }
    (hid_lg3ff_set_autocenter .little_endian
      { input := { ffbit := set_bit FF_AUTOCENTER (set_bit FF_CONSTANT (fun _ => false)),
                   ff := some { play_effect := some ff_handler.hid_lg3ff_play,
                                set_autocenter := some ff_handler.hid_lg3ff_set_autocenter } },
        report_count := 63, value := fun _ => 7, requests := [] } 0)
    0 rfl).1 (fun _ _ hbit => hbit) rfl
  ⟨_, rfl, h.2.1, h.2.2.2.2.1,
    h.2.2.2.2.2.2.1 0 (by decide) (by decide) (by decide) (by decide) (by decide)⟩

end Lg3ff
